import Mathlib

/-!
# DineMap front-end: selection / visibility state synchronisation

A shallow embedding of the state logic of `src/App.jsx` and
`src/components/MapView.jsx`.

* JavaScript numbers are kept abstract: every numeric primitive the source calls
  (`Math.sin`, `Math.atan2`, `parseFloat`, `isNaN`, `<=`, the arithmetic operators)
  is a field of `JsMath`, so each source expression is embedded operator by operator,
  in the source's evaluation order.
* The Leaflet calls the source makes (`L.latLngBounds`, `bounds.isValid()`) are the
  fields of `Leaflet`; calls on the map and on markers are recorded as `MapCall`s.
* React state is explicit: an effect reads props and state from the snapshot of the
  render that scheduled it, reads and writes refs in place, and its state updaters
  are applied, in order, to the pending state.
-/

namespace DineMap

/-! ## The runtime the components run on -/

/-- Numeric primitives of the JavaScript runtime used by `MapView.jsx`, over a type
`α` of numbers and a type `κ` of raw coordinate fields of an outlet record. -/
structure JsMath (α : Type) (κ : Type) where
  /-- A numeric literal of the source text (`180`, `2`, `1`, `6371`, `5`). -/
  lit : Nat → α
  /-- The constant `Math.PI`. -/
  pi : α
  /-- Binary `+`. -/
  add : α → α → α
  /-- Binary `-`. -/
  sub : α → α → α
  /-- Binary `*`. -/
  mul : α → α → α
  /-- Binary `/`. -/
  div : α → α → α
  /-- The function `Math.sin`. -/
  sin : α → α
  /-- The function `Math.cos`. -/
  cos : α → α
  /-- The function `Math.sqrt`. -/
  sqrt : α → α
  /-- The function `Math.atan2(y, x)`. -/
  atan2 : α → α → α
  /-- The comparison `<=`. -/
  le : α → α → Bool
  /-- The global `isNaN`. -/
  isNaN : α → Bool
  /-- The global `parseFloat`, applied to a raw coordinate field. -/
  parseFloat : κ → α

/-- The two Leaflet functions on bounds that `MapView.jsx` calls, over a type `β` of
bounds objects. Leaflet raises an error when handed a `NaN` coordinate; that path is not
part of the model, whose statements on the viewport effect assume numeric coordinates. -/
structure Leaflet (α : Type) (β : Type) where
  /-- The constructor `L.latLngBounds(latlngs)`. -/
  latLngBounds : List (α × α) → β
  /-- The method `bounds.isValid()`. -/
  isValid : β → Bool

/-- A call made on the Leaflet map instance or on a marker. -/
inductive MapCall (α : Type) (β : Type) where
  /-- The call `mapRef.current.setView([lat, lng], zoom, { animate, duration })`. -/
  | setView (lat lng : α) (zoom : Nat) (animate : Bool) (duration : Nat)
  /-- The call `mapRef.current.fitBounds(bounds, { padding, animate, duration })`. -/
  | fitBounds (bounds : β) (padding : Nat × Nat) (animate : Bool) (duration : Nat)
  /-- The call `openPopup(id)` of the component. -/
  | openPopup (id : Int)
  /-- The call `closePopup(id)` of the component. -/
  | closePopup (id : Int)
  /-- The loop `Object.values(markerRefs.current).forEach(mk => mk.closePopup())`. -/
  | closeAllPopups
  deriving DecidableEq, Repr

/-- Whether a call moves the camera (`setView` or `fitBounds`). -/
def MapCall.isCamera {α β : Type} : MapCall α β → Bool
  | .setView _ _ _ _ _ => true
  | .fitBounds _ _ _ _ => true
  | _ => false

/-! ## Data model -/

/-- An outlet record, reduced to the fields the state logic reads. -/
structure Outlet (κ : Type) where
  /-- The field `id`. -/
  id : Int
  /-- The raw field `latitude`. -/
  latitude : κ
  /-- The raw field `longitude`. -/
  longitude : κ
  deriving DecidableEq, Repr

/-- The payload of a chat response: `related_ids` may be absent. -/
structure ChatData where
  /-- The field `related_ids`. -/
  related_ids : Option (List Int)
  deriving DecidableEq, Repr

/-- The state of `App` together with the state and refs of `MapView`. -/
structure State (κ : Type) where
  /-- `App` state `selectedIds`, passed to `MapView` as a prop. -/
  selectedIds : List Int
  /-- `App` state `show5kmRadius`, passed to `MapView` as a prop. -/
  show5kmRadius : Bool
  /-- `MapView` state `outlets`. -/
  outlets : List (Outlet κ)
  /-- `MapView` state `openPopupIds`. -/
  openPopupIds : List Int
  /-- Whether `mapRef.current` holds the map instance. -/
  mapReady : Bool
  /-- The ref `hasZoomedRef.current`. -/
  hasZoomed : Bool
  /-- The ref `prevSelectedIdsRef.current`. -/
  prevSelectedIds : List Int
  deriving DecidableEq, Repr

/-- The state of a freshly mounted application. -/
def State.initial (κ : Type) : State κ :=
  { selectedIds := [], show5kmRadius := false, outlets := [], openPopupIds := [],
    mapReady := false, hasZoomed := false, prevSelectedIds := [] }

/-- The constant `radiusKM`. -/
def radiusKM : Nat := 5

/-- The constant `zoomLevel`. -/
def zoomLevel : Nat := 14

/-! ## `App.jsx` -/

/-- The state updater inside `onToggleId`: remove `id` when present, else append it. -/
def toggleIds (prev : List Int) (id : Int) : List Int :=
  if prev.contains id then prev.filter (fun x => x != id) else prev ++ [id]

/-- The handler `handleChatResult(data)`. -/
def handleChatResult {κ : Type} (s : State κ) (data : ChatData) : State κ :=
  match data.related_ids with
  | some ids => if ids.length > 0 then { s with selectedIds := ids } else { s with selectedIds := [] }
  | none => { s with selectedIds := [] }

/-- The handler `clearAll()`. -/
def clearAll {κ : Type} (s : State κ) : State κ :=
  { s with selectedIds := [] }

/-- The prop `onToggleId(id)`: `setSelectedIds` with the toggle updater. -/
def onToggleId {κ : Type} (s : State κ) (id : Int) : State κ :=
  { s with selectedIds := toggleIds s.selectedIds id }

/-! ## `MapView.jsx`: distance -/

/-- The function `getDistance(lat1, lon1, lat2, lon2)`. -/
def getDistance {α κ : Type} (m : JsMath α κ) (lat1 lon1 lat2 lon2 : α) : α :=
  let R := m.lit 6371
  let dLat := m.div (m.mul (m.sub lat2 lat1) m.pi) (m.lit 180)
  let dLon := m.div (m.mul (m.sub lon2 lon1) m.pi) (m.lit 180)
  let a :=
    m.add
      (m.mul (m.sin (m.div dLat (m.lit 2))) (m.sin (m.div dLat (m.lit 2))))
      (m.mul
        (m.mul
          (m.mul (m.cos (m.div (m.mul lat1 m.pi) (m.lit 180)))
                 (m.cos (m.div (m.mul lat2 m.pi) (m.lit 180))))
          (m.sin (m.div dLon (m.lit 2))))
        (m.sin (m.div dLon (m.lit 2))))
  let c := m.mul (m.lit 2) (m.atan2 (m.sqrt a) (m.sqrt (m.sub (m.lit 1) a)))
  m.mul R c

/-- The function `isWithinRadius(o, targetId)`, reading `outlets` from the state. -/
def isWithinRadius {α κ : Type} (m : JsMath α κ) (outlets : List (Outlet κ))
    (o : Outlet κ) (targetId : Int) : Bool :=
  if o.id = targetId then false
  else
    match outlets.find? (fun s => s.id == targetId) with
    | none => false
    | some targetStore =>
      let dist := getDistance m
        (m.parseFloat targetStore.latitude) (m.parseFloat targetStore.longitude)
        (m.parseFloat o.latitude) (m.parseFloat o.longitude)
      m.le dist (m.lit radiusKM)

/-! ## `MapView.jsx`: derived predicates -/

/-- The function `isMarkerRed(o)`. -/
def isMarkerRed {α κ : Type} (m : JsMath α κ) (s : State κ) (o : Outlet κ) : Bool :=
  if s.selectedIds.contains o.id then true
  else if s.openPopupIds.contains o.id then true
  else if s.show5kmRadius then
    if s.selectedIds.any (fun searchId => isWithinRadius m s.outlets o searchId) then true
    else if s.openPopupIds.any (fun popupId => isWithinRadius m s.outlets o popupId) then true
    else false
  else false

/-- The function `shouldShowCircle(o)`. -/
def shouldShowCircle {κ : Type} (s : State κ) (o : Outlet κ) : Bool :=
  if !s.show5kmRadius then false
  else s.selectedIds.contains o.id || s.openPopupIds.contains o.id

/-! ## `MapView.jsx`: event handlers -/

/-- The handler `handleMarkerClick(store)`. -/
def handleMarkerClick {α β κ : Type} (s : State κ) (store : Outlet κ) :
    State κ × List (MapCall α β) :=
  let storeId := store.id
  let r : State κ × List (MapCall α β) :=
    if s.openPopupIds.contains storeId then
      ({ s with openPopupIds := s.openPopupIds.filter (fun id => id != storeId) },
        [MapCall.closePopup storeId])
    else
      ({ s with openPopupIds := s.openPopupIds ++ [storeId] }, [MapCall.openPopup storeId])
  (onToggleId r.1 storeId, r.2)

/-- The handler `handlePopupClose(id)`; `selectedIds` is read from the rendered props. -/
def handlePopupClose {κ : Type} (s : State κ) (id : Int) : State κ :=
  let s1 := { s with openPopupIds := s.openPopupIds.filter (fun popupId => popupId != id) }
  if s.selectedIds.contains id then onToggleId s1 id else s1

/-! ## `MapView.jsx`: effects

Each effect takes the snapshot `snap` of the render that scheduled it (props and
state as rendered) and the pending state `cur` (refs as they are now, state with the
updaters queued so far applied), and returns the new pending state with the calls
made on the map. -/

/-- Effect 6 (clear all), dependencies `[selectedIds, openPopupIds.length]`. The
popup-close events that closing the popups raises run `handlePopupClose` on the same
render, where `selectedIds` is empty: they only queue filters of `openPopupIds`, which
the `setOpenPopupIds([])` queued after them replaces. -/
def effect6 {α β κ : Type} (snap cur : State κ) : State κ × List (MapCall α β) :=
  if snap.selectedIds.length == 0 && snap.openPopupIds.length > 0 then
    ({ cur with openPopupIds := [], hasZoomed := false }, [MapCall.closeAllPopups])
  else (cur, [])

/-- Effect 7 (detect a new search), dependencies `[selectedIds]`. -/
def effect7 {κ : Type} (snap cur : State κ) : State κ :=
  let prevIds := cur.prevSelectedIds
  let currentIds := snap.selectedIds
  let isDifferentSearch :=
    prevIds.length != currentIds.length || currentIds.any (fun id => !prevIds.contains id)
  let cur1 := if isDifferentSearch && currentIds.length > 0 then { cur with hasZoomed := false } else cur
  { cur1 with prevSelectedIds := currentIds }

/-- The updater queued by effect 8 for one outlet id: append it unless present. -/
def addPopupId (prev : List Int) (id : Int) : List Int :=
  if !prev.contains id then prev ++ [id] else prev

/-- The constant `isChatboxSearch` of effect 8: no popup is open, or no selected id has
its popup open. -/
def isChatboxSearch {κ : Type} (snap : State κ) : Bool :=
  snap.openPopupIds.length == 0 ||
    !snap.selectedIds.any (fun id => snap.openPopupIds.contains id)

/-- Effect 8 (auto-center and popups), dependencies `[selectedIds, outlets, openPopupIds]`. -/
def effect8 {α β κ : Type} (m : JsMath α κ) (L : Leaflet α β) (snap cur : State κ) :
    State κ × List (MapCall α β) :=
  if !cur.mapReady || snap.outlets.length == 0 then (cur, [])
  else if snap.selectedIds.length == 0 then (cur, [])
  else
    let selectedOutletsArr := snap.outlets.filter (fun o => snap.selectedIds.contains o.id)
    if selectedOutletsArr.length == 0 then (cur, [])
    else if !cur.hasZoomed then
      let cur1 := { cur with hasZoomed := true }
      let camera : List (MapCall α β) :=
        if isChatboxSearch snap then
          let latlngs := selectedOutletsArr.map
            (fun o => (m.parseFloat o.latitude, m.parseFloat o.longitude))
          let bounds := L.latLngBounds latlngs
          if selectedOutletsArr.length > 1 then
            if L.isValid bounds then [MapCall.fitBounds bounds (50, 50) true 1] else []
          else if selectedOutletsArr.length == 1 then
            match latlngs with
            | (lat, lng) :: _ =>
              if !m.isNaN lat && !m.isNaN lng then [MapCall.setView lat lng zoomLevel true 1]
              else []
            | [] => []
          else []
        else []
      if isChatboxSearch snap then
        ({ cur1 with
            openPopupIds :=
              selectedOutletsArr.foldl (fun prev o => addPopupId prev o.id) cur1.openPopupIds },
          camera ++ selectedOutletsArr.map (fun o => MapCall.openPopup o.id))
      else (cur1, camera)
    else (cur, [])

/-- Which of the effects 6, 7 and 8 have a changed dependency in a commit. -/
structure Deps where
  /-- Effect 6 runs. -/
  d6 : Bool
  /-- Effect 7 runs. -/
  d7 : Bool
  /-- Effect 8 runs. -/
  d8 : Bool
  deriving DecidableEq, Repr

/-- The dependencies changed by a new `selectedIds` value: all three effects list it. -/
def Deps.all : Deps := { d6 := true, d7 := true, d8 := true }

/-- One commit: the effects whose dependencies changed run in source order, all on the
snapshot of the render being committed. -/
def commit {α β κ : Type} (m : JsMath α κ) (L : Leaflet α β) (d : Deps) (s : State κ) :
    State κ × List (MapCall α β) :=
  let r6 : State κ × List (MapCall α β) := if d.d6 then effect6 s s else (s, [])
  let s7 := if d.d7 then effect7 s r6.1 else r6.1
  let r8 : State κ × List (MapCall α β) := if d.d8 then effect8 m L s s7 else (s7, [])
  (r8.1, r6.2 ++ r8.2)

/-- A sequence of commits, each rendering the state the previous one left. -/
def commits {α β κ : Type} (m : JsMath α κ) (L : Leaflet α β) :
    List Deps → State κ → State κ × List (MapCall α β)
  | [], s => (s, [])
  | d :: ds, s =>
    let r := commit m L d s
    let rs := commits m L ds r.1
    (rs.1, r.2 ++ rs.2)

/-! ## Reachable selections -/

/-- The values of `selectedIds` reachable from the initial state through
`handleChatResult`, `onToggleId` and `clearAll`; `P` restricts the chat payloads. -/
inductive ReachableSel (P : ChatData → Prop) : List Int → Prop where
  /-- The initial selection `useState([])`. -/
  | init : ReachableSel P (State.initial Unit).selectedIds
  /-- A chat response arrives. -/
  | chat (s : State Unit) (data : ChatData) :
      ReachableSel P s.selectedIds → P data → ReachableSel P (handleChatResult s data).selectedIds
  /-- A marker is toggled. -/
  | toggle (s : State Unit) (id : Int) :
      ReachableSel P s.selectedIds → ReachableSel P (onToggleId s id).selectedIds
  /-- The selection is cleared. -/
  | clear (s : State Unit) :
      ReachableSel P s.selectedIds → ReachableSel P (clearAll s).selectedIds

/-! ## Laws of the arithmetic used for the symmetry of `getDistance` -/

/-- Sign laws of an arithmetic with negation `neg`: swapping the operands of `-`
negates the result (or leaves it, as for the zero of equal operands), negation passes
through `*` and `/`, `Math.sin` is odd, and `*` is commutative. -/
structure OddArith {α κ : Type} (m : JsMath α κ) (neg : α → α) : Prop where
  /-- Swapping the operands of a subtraction. -/
  sub_swap : ∀ a b, m.sub a b = neg (m.sub b a) ∨ m.sub a b = m.sub b a
  /-- Negation of the left factor. -/
  neg_mul : ∀ a b, m.mul (neg a) b = neg (m.mul a b)
  /-- Negation of the numerator. -/
  neg_div : ∀ a b, m.div (neg a) b = neg (m.div a b)
  /-- The sine is odd. -/
  sin_neg : ∀ a, m.sin (neg a) = neg (m.sin a)
  /-- A product of two negated factors. -/
  neg_mul_neg : ∀ a b, m.mul (neg a) (neg b) = m.mul a b
  /-- Multiplication commutes. -/
  mul_comm : ∀ a b, m.mul a b = m.mul b a

/-! ## A concrete runtime: exact real arithmetic -/

/-- The runtime over the real numbers: exact arithmetic, no `NaN`, coordinates that
are already numbers. -/
noncomputable def realMath : JsMath ℝ ℝ :=
  { lit := fun n => (n : ℝ)
    pi := Real.pi
    add := fun a b => a + b
    sub := fun a b => a - b
    mul := fun a b => a * b
    div := fun a b => a / b
    sin := Real.sin
    cos := Real.cos
    sqrt := Real.sqrt
    atan2 := fun y x => Complex.arg ⟨x, y⟩
    le := fun a b => decide (a ≤ b)
    isNaN := fun _ => false
    parseFloat := fun x => x }

/-- The runtime over IEEE 754 doubles, the numbers JavaScript computes with. -/
def floatMath : JsMath Float Float :=
  { lit := fun n => n.toFloat
    pi := 3.141592653589793
    add := fun a b => a + b
    sub := fun a b => a - b
    mul := fun a b => a * b
    div := fun a b => a / b
    sin := Float.sin
    cos := Float.cos
    sqrt := Float.sqrt
    atan2 := Float.atan2
    le := fun a b => decide (a ≤ b)
    isNaN := Float.isNaN
    parseFloat := fun x => x }

/-- Bounds over the reals: the south-west and north-east corners of the points, absent
for an empty list. -/
noncomputable def realLeaflet : Leaflet ℝ (Option ((ℝ × ℝ) × (ℝ × ℝ))) :=
  { latLngBounds := fun pts =>
      pts.foldl
        (fun b p =>
          match b with
          | none => some (p, p)
          | some (sw, ne) => some ((min sw.1 p.1, min sw.2 p.2), (max ne.1 p.1, max ne.2 p.2)))
        none
    isValid := fun b => b.isSome }

/-! ## Concrete inputs -/

/-- Outlet 1 of the scenarios: `{id: 1, lat: 3.0, lon: 101.0}`. -/
noncomputable def outlet1 : Outlet ℝ := { id := 1, latitude := 3.0, longitude := 101.0 }

/-- Outlet 2 of the scenarios: `{id: 2, lat: 3.01, lon: 101.01}`. -/
noncomputable def outlet2 : Outlet ℝ := { id := 2, latitude := 3.01, longitude := 101.01 }

/-- An outlet 3 due north of outlet 1, about 4.9 km away. -/
noncomputable def outlet3 : Outlet ℝ := { id := 3, latitude := 3.044, longitude := 101.0 }

/-- A loaded map showing the three outlets, nothing selected, no popup open. -/
noncomputable def loaded : State ℝ :=
  { selectedIds := [], show5kmRadius := false, outlets := [outlet1, outlet2, outlet3],
    openPopupIds := [], mapReady := true, hasZoomed := false, prevSelectedIds := [] }

/-- The state of scenario 5: radius mode on, outlet 1 selected. -/
noncomputable def scenario5 : State ℝ :=
  { loaded with selectedIds := [1], show5kmRadius := true }

/-! ## `ChatUI.jsx` -/

/-- The role of a chat message. -/
inductive Role where
  /-- The role `"user"`. -/
  | user
  /-- The role `"assistant"`. -/
  | assistant
  deriving DecidableEq, Repr

/-- A chat message `{ role, content }`; `content` is absent when the response carries no
`answer`. -/
structure ChatMessage where
  /-- The field `role`. -/
  role : Role
  /-- The field `content`. -/
  content : Option String
  deriving DecidableEq, Repr

/-- The state of `ChatUI` that `handleSend` reads or writes. The body of the request
(query text and user coordinates) is not modelled: the outcome of the query is an input. -/
structure ChatUI where
  /-- The state `messages`. -/
  messages : List ChatMessage
  /-- The state `input`. -/
  input : String
  /-- The state `loading`. -/
  loading : Bool
  deriving DecidableEq, Repr

/-- How the two awaited calls of `handleSend` end. -/
inductive QueryResult where
  /-- The promise of `fetch(...)` is rejected. -/
  | rejected
  /-- The promise of `res.json()` is rejected: the body cannot be parsed. -/
  | unparsable
  /-- The body parses to `null`: reading `data.answer` raises inside the `try`. -/
  | parsedNull
  /-- The body parses to an object `data` with the given `answer` and `related_ids`. -/
  | parsed (answer : Option String) (data : ChatData)
  deriving DecidableEq, Repr

/-- The assistant message appended by the `catch` branch of `handleSend`. -/
def fallbackMessage : ChatMessage :=
  { role := Role.assistant,
    content := some "Sorry, I couldn't process your request. Please try again." }

/-- The part of `handleSend` before the first `await`: nothing when `input.trim()` is
empty, else the user message is appended and `loading` is set. `trim` is the runtime's
`String.prototype.trim`. -/
def handleSendStart (trim : String → String) (c : ChatUI) : Option ChatUI :=
  if trim c.input = "" then none
  else
    some { c with
      messages := c.messages ++ [{ role := Role.user, content := some (trim c.input) }]
      loading := true }

/-- The part of `handleSend` after the awaited calls, with `onChatResult` the
`handleChatResult` of `App`; the third component lists the payloads passed to
`onChatResult`. -/
def handleSendResume {κ : Type} (res : QueryResult) (c : ChatUI) (s : State κ) :
    ChatUI × State κ × List ChatData :=
  match res with
  | QueryResult.parsed answer data =>
    ({ c with
        messages := c.messages ++ [{ role := Role.assistant, content := answer }]
        loading := false
        input := "" },
      handleChatResult s data, [data])
  | _ =>
    ({ c with messages := c.messages ++ [fallbackMessage], loading := false, input := "" },
      s, [])

/-- The handler `handleSend()`, run without another event between its two parts. -/
def handleSend {κ : Type} (trim : String → String) (res : QueryResult) (c : ChatUI)
    (s : State κ) : ChatUI × State κ × List ChatData :=
  match handleSendStart trim c with
  | none => (c, s, [])
  | some c1 => handleSendResume res c1 s

/-! ## `MapView.jsx`: the marker render loop -/

/-- The constant `radiusMeters`. -/
def radiusMeters : Nat := radiusKM * 1000

/-- What the render loop returns for one outlet: a `Marker` at `position` with the red or
blue icon, preceded by a `Circle` of radius `radiusMeters` around `position` when
`showCircle` holds. -/
structure MarkerView (α : Type) where
  /-- The pair `[lat, lng]`. -/
  position : α × α
  /-- The constant `markerIsRed`. -/
  markerIsRed : Bool
  /-- The constant `showCircle`. -/
  showCircle : Bool
  deriving DecidableEq, Repr

/-- The body of `outlets.map((o) => ...)`: `none` is the `return null`. `truthy` is the
runtime's conversion of a raw field to a boolean. -/
def renderOutlet {α κ : Type} (m : JsMath α κ) (truthy : κ → Bool) (s : State κ)
    (o : Outlet κ) : Option (MarkerView α) :=
  if !truthy o.latitude || !truthy o.longitude then none
  else
    let lat := m.parseFloat o.latitude
    let lng := m.parseFloat o.longitude
    let markerIsRed := isMarkerRed m s o
    let showCircle := shouldShowCircle s o
    some { position := (lat, lng), markerIsRed := markerIsRed, showCircle := showCircle }

/-- The render loop over `outlets`. -/
def renderOutlets {α κ : Type} (m : JsMath α κ) (truthy : κ → Bool) (s : State κ) :
    List (Option (MarkerView α)) :=
  s.outlets.map (renderOutlet m truthy s)

/-- The constant `isDifferentSearch` of effect 7, on the previous and the current ids. -/
def isDifferentSearch (prevIds currentIds : List Int) : Bool :=
  prevIds.length != currentIds.length || currentIds.any (fun id => !prevIds.contains id)

/-! ## Renders that keep the selection -/

/-- A later render with the same `selectedIds`: the outlet list, the open popups and the
map handle are whatever the fetch, the popup events and the map have made of them, and
`deps` tells which effects run. -/
structure Rerender (κ : Type) where
  /-- The state `outlets` at this render. -/
  outlets : List (Outlet κ)
  /-- The state `openPopupIds` at this render. -/
  openPopupIds : List Int
  /-- Whether `mapRef.current` holds the map at this render. -/
  mapReady : Bool
  /-- The effects that run. -/
  deps : Deps

/-- The commit of a later render. -/
def rerender {α β κ : Type} (m : JsMath α κ) (L : Leaflet α β) (r : Rerender κ)
    (s : State κ) : State κ × List (MapCall α β) :=
  commit m L r.deps
    { s with outlets := r.outlets, openPopupIds := r.openPopupIds, mapReady := r.mapReady }

/-- A sequence of later renders. -/
def rerenders {α β κ : Type} (m : JsMath α κ) (L : Leaflet α β) :
    List (Rerender κ) → State κ → State κ × List (MapCall α β)
  | [], s => (s, [])
  | r :: rs, s =>
    let out := rerender m L r s
    let rest := rerenders m L rs out.1
    (rest.1, out.2 ++ rest.2)

/-! ## A concrete runtime with `NaN` and raw JSON fields -/

/-- A raw coordinate field of an outlet record as the outlet API delivers it. -/
inductive RawField where
  /-- The field is missing or `null`. -/
  | absent
  /-- A JSON number. -/
  | number (x : ℚ)
  /-- A JSON string. -/
  | text (s : String)
  deriving DecidableEq, Repr

/-- JavaScript truthiness of a raw field: a missing field, the number `0` and the empty
string are falsy. -/
def RawField.truthy : RawField → Bool
  | RawField.absent => false
  | RawField.number x => decide (x ≠ 0)
  | RawField.text s => decide (s ≠ "")

/-- The value of a run of decimal digits. -/
def digitsValue (ds : List Char) : Nat :=
  ds.foldl (fun acc d => acc * 10 + (d.toNat - '0'.toNat)) 0

/-- The number a string denotes in plain decimal notation (blanks, optional sign, digits,
optional fraction), read from its longest such prefix as `parseFloat` does; `none` is
`NaN`. Exponents and `Infinity` are not read. -/
def parseDecimal (s : String) : Option ℚ :=
  let cs := s.toList.dropWhile (fun c => c == ' ' || c == '\t' || c == '\n' || c == '\r')
  let neg := cs.head? == some '-'
  let cs1 := if cs.head? == some '-' || cs.head? == some '+' then cs.tail else cs
  let ip := cs1.takeWhile Char.isDigit
  let rest := cs1.dropWhile Char.isDigit
  let fp := if rest.head? == some '.' then rest.tail.takeWhile Char.isDigit else []
  if ip.isEmpty && fp.isEmpty then none
  else
    let v : ℚ := (digitsValue ip : ℚ) + (digitsValue fp : ℚ) / (10 ^ fp.length : ℚ)
    some (if neg then -v else v)

/-- The runtime over the reals extended by `NaN` (`none`), reading raw JSON fields: `NaN`
propagates through every operation, compares false, and is what `parseFloat` gives for a
missing field or a string that starts with no number. A result that would be infinite
counts as `NaN`. -/
noncomputable def nanMath : JsMath (Option ℝ) RawField :=
  { lit := fun n => some (n : ℝ)
    pi := some Real.pi
    add := fun a b => a.bind fun x => b.map fun y => x + y
    sub := fun a b => a.bind fun x => b.map fun y => x - y
    mul := fun a b => a.bind fun x => b.map fun y => x * y
    div := fun a b => a.bind fun x => b.bind fun y => if y = 0 then none else some (x / y)
    sin := fun a => a.map Real.sin
    cos := fun a => a.map Real.cos
    sqrt := fun a => a.bind fun x => if 0 ≤ x then some (Real.sqrt x) else none
    atan2 := fun a b => a.bind fun y => b.map fun x => Complex.arg ⟨x, y⟩
    le := fun a b =>
      match a, b with
      | some x, some y => decide (x ≤ y)
      | _, _ => false
    isNaN := fun a => a.isNone
    parseFloat := fun v =>
      match v with
      | RawField.absent => none
      | RawField.number x => some (x : ℝ)
      | RawField.text s => (parseDecimal s).map fun q => (q : ℝ) }

/-- An outlet record whose latitude is the string `"abc"`. -/
def textOutlet : Outlet RawField :=
  { id := 1, latitude := RawField.text "abc", longitude := RawField.number 101 }

/-- An outlet record without a latitude. -/
def bareOutlet : Outlet RawField :=
  { id := 2, latitude := RawField.absent, longitude := RawField.number 101 }

/-- The map after the fetch delivered `textOutlet` and `bareOutlet`. -/
def rawLoaded : State RawField :=
  { State.initial RawField with outlets := [textOutlet, bareOutlet], mapReady := true }

/-- A `trim` for concrete inputs: strips blanks, tabs and line breaks at both ends. -/
def trimBlanks (s : String) : String :=
  String.mk
    (((s.toList.dropWhile
        (fun c => c == ' ' || c == '\t' || c == '\n' || c == '\r')).reverse.dropWhile
        (fun c => c == ' ' || c == '\t' || c == '\n' || c == '\r')).reverse)

/-- The chat panel after the greeting, with `" pizza "` typed in. -/
def typedPizza : ChatUI :=
  { messages := [{ role := Role.assistant, content := some "Hello!" }],
    input := " pizza ", loading := false }

/-- A state rendering the selection `[2, 3]` while effect 7 still holds `[1, 2]`, the
latch up. -/
def secondSearch : State Unit :=
  { State.initial Unit with selectedIds := [2, 3], prevSelectedIds := [1, 2], hasZoomed := true }

/-- The loaded map with outlet 1 selected by the chat. -/
noncomputable def scenario1 : State ℝ :=
  { loaded with selectedIds := [1] }

/-- Two later renders of scenario 1: popup 1 has opened, then the outlet list is fetched
again and the popup is dismissed. -/
noncomputable def laterRenders : List (Rerender ℝ) :=
  [{ outlets := [outlet1, outlet2, outlet3], openPopupIds := [1], mapReady := true,
     deps := { d6 := true, d7 := false, d8 := true } },
   { outlets := [outlet1, outlet2, outlet3], openPopupIds := [], mapReady := true,
     deps := Deps.all }]

/-! ## Shared lemmas -/

theorem mem_toggleIds_of_ne (prev : List Int) (id x : Int) (h : x ≠ id) :
    x ∈ toggleIds prev id ↔ x ∈ prev := by
  unfold toggleIds
  split <;> simp [h]

theorem not_mem_toggleIds_of_mem (prev : List Int) (id : Int) (h : id ∈ prev) :
    id ∉ toggleIds prev id := by
  unfold toggleIds
  simp [h]

theorem mem_toggleIds_of_not_mem (prev : List Int) (id : Int) (h : id ∉ prev) :
    id ∈ toggleIds prev id := by
  unfold toggleIds
  simp [h]

theorem isWithinRadius_eq_true_iff {α κ : Type} (m : JsMath α κ) (outlets : List (Outlet κ))
    (o : Outlet κ) (r : Int) :
    isWithinRadius m outlets o r = true ↔
      r ≠ o.id ∧ ∃ t, outlets.find? (fun s => s.id == r) = some t ∧
        m.le (getDistance m (m.parseFloat t.latitude) (m.parseFloat t.longitude)
          (m.parseFloat o.latitude) (m.parseFloat o.longitude)) (m.lit radiusKM) = true := by
  unfold isWithinRadius
  by_cases h : o.id = r
  · simp [h]
  · have h2 : r ≠ o.id := fun e => h e.symm
    cases hf : outlets.find? (fun s => s.id == r) with
    | none => simp [h]
    | some t => simp [h, h2]

/-! ## Claims -/

/-- C1: `isMarkerRed(o)` is true exactly when `o.id` is in `selectedIds` or in
`openPopupIds`, or `show5kmRadius` is on and some reference id of either list, different
from `o.id`, resolves in the outlet store to an outlet whose `getDistance` to `o` is
`<= 5`. -/
theorem isMarkerRed_iff {α κ : Type} (m : JsMath α κ) (s : State κ) (o : Outlet κ) :
    isMarkerRed m s o = true ↔
      o.id ∈ s.selectedIds ∨ o.id ∈ s.openPopupIds ∨
        (s.show5kmRadius = true ∧
          ∃ r, (r ∈ s.selectedIds ∨ r ∈ s.openPopupIds) ∧ r ≠ o.id ∧
            ∃ t, s.outlets.find? (fun x => x.id == r) = some t ∧
              m.le (getDistance m (m.parseFloat t.latitude) (m.parseFloat t.longitude)
                (m.parseFloat o.latitude) (m.parseFloat o.longitude)) (m.lit 5) = true) := by
  have key : ∀ r, isWithinRadius m s.outlets o r = true ↔
      r ≠ o.id ∧ ∃ t, s.outlets.find? (fun x => x.id == r) = some t ∧
        m.le (getDistance m (m.parseFloat t.latitude) (m.parseFloat t.longitude)
          (m.parseFloat o.latitude) (m.parseFloat o.longitude)) (m.lit 5) = true :=
    fun r => isWithinRadius_eq_true_iff m s.outlets o r
  unfold isMarkerRed
  by_cases h1 : o.id ∈ s.selectedIds
  · simp [h1]
  by_cases h2 : o.id ∈ s.openPopupIds
  · simp [h1, h2]
  by_cases h3 : s.show5kmRadius = true
  · have hc1 : s.selectedIds.contains o.id = false := by simp [h1]
    have hc2 : s.openPopupIds.contains o.id = false := by simp [h2]
    simp only [hc1, hc2, h3, h1, h2, if_true, false_or, true_and, Bool.false_eq_true, if_false]
    constructor
    · intro h
      by_cases ha : s.selectedIds.any (fun searchId => isWithinRadius m s.outlets o searchId) = true
      · obtain ⟨r, hr, hw⟩ := List.any_eq_true.mp ha
        exact ⟨r, Or.inl hr, (key r).mp hw⟩
      · by_cases hb : s.openPopupIds.any (fun popupId => isWithinRadius m s.outlets o popupId) = true
        · obtain ⟨r, hr, hw⟩ := List.any_eq_true.mp hb
          exact ⟨r, Or.inr hr, (key r).mp hw⟩
        · simp [ha, hb] at h
    · rintro ⟨r, hr, hw⟩
      have hw2 := (key r).mpr hw
      rcases hr with hr | hr
      · have ha : s.selectedIds.any (fun searchId => isWithinRadius m s.outlets o searchId) = true :=
          List.any_eq_true.mpr ⟨r, hr, hw2⟩
        simp [ha]
      · have hb : s.openPopupIds.any (fun popupId => isWithinRadius m s.outlets o popupId) = true :=
          List.any_eq_true.mpr ⟨r, hr, hw2⟩
        simp [hb]
  · simp [h1, h2, h3]

/-- C2: `shouldShowCircle(o)` is true exactly when `show5kmRadius` is on and `o.id` is in
`selectedIds` or in `openPopupIds`; with `show5kmRadius` on, an outlet in neither list
that is within the radius of a selected id has a red marker and no circle. -/
theorem shouldShowCircle_iff {α κ : Type} (m : JsMath α κ) (s : State κ) (o : Outlet κ) :
    (shouldShowCircle s o = true ↔
      s.show5kmRadius = true ∧ (o.id ∈ s.selectedIds ∨ o.id ∈ s.openPopupIds)) ∧
    (s.show5kmRadius = true → o.id ∉ s.selectedIds → o.id ∉ s.openPopupIds →
      (∃ r ∈ s.selectedIds, isWithinRadius m s.outlets o r = true) →
        isMarkerRed m s o = true ∧ shouldShowCircle s o = false) := by
  refine ⟨?_, ?_⟩
  · unfold shouldShowCircle
    cases s.show5kmRadius <;> simp
  · intro h5 h1 h2 ⟨r, hr, hw⟩
    have ha : s.selectedIds.any (fun searchId => isWithinRadius m s.outlets o searchId) = true :=
      List.any_eq_true.mpr ⟨r, hr, hw⟩
    constructor
    · unfold isMarkerRed
      simp [h1, h2, h5, ha]
    · unfold shouldShowCircle
      simp [h1, h2, h5]

/-- C3: `isWithinRadius(o, targetId)` is false when `o.id` equals `targetId` (so
`isWithinRadius(o, o.id)` is false), false when no outlet of the store has id `targetId`,
and otherwise true exactly when `getDistance` from the outlet found for `targetId` to `o`
is `<= 5`. -/
theorem isWithinRadius_spec {α κ : Type} (m : JsMath α κ) (outlets : List (Outlet κ))
    (o : Outlet κ) (targetId : Int) :
    (o.id = targetId → isWithinRadius m outlets o targetId = false) ∧
    isWithinRadius m outlets o o.id = false ∧
    ((∀ x ∈ outlets, x.id ≠ targetId) → isWithinRadius m outlets o targetId = false) ∧
    (∀ t, o.id ≠ targetId → outlets.find? (fun x => x.id == targetId) = some t →
      (isWithinRadius m outlets o targetId = true ↔
        m.le (getDistance m (m.parseFloat t.latitude) (m.parseFloat t.longitude)
          (m.parseFloat o.latitude) (m.parseFloat o.longitude)) (m.lit 5) = true)) := by
  refine ⟨?_, ?_, ?_, ?_⟩
  · intro h
    simp [isWithinRadius, h]
  · simp [isWithinRadius]
  · intro h
    have hf : outlets.find? (fun x => x.id == targetId) = none := by
      rw [List.find?_eq_none]
      intro x hx
      simpa using h x hx
    unfold isWithinRadius
    split
    · rfl
    · rw [hf]
  · intro t hne hf
    rw [isWithinRadius_eq_true_iff]
    constructor
    · rintro ⟨_, t2, ht2, hle⟩
      rw [hf] at ht2
      cases ht2
      exact hle
    · intro hle
      exact ⟨fun e => hne e.symm, t, hf, hle⟩

/-- C4: `getDistance` is symmetric in its two points, in every arithmetic obeying the
sign laws `OddArith`: `getDistance(lat1, lon1, lat2, lon2)` and
`getDistance(lat2, lon2, lat1, lon1)` are the same number. -/
theorem getDistance_symm {α κ : Type} (m : JsMath α κ) (neg : α → α) (h : OddArith m neg)
    (lat1 lon1 lat2 lon2 : α) :
    getDistance m lat1 lon1 lat2 lon2 = getDistance m lat2 lon2 lat1 lon1 := by
  have half : ∀ x y : α,
      m.sin (m.div (m.div (m.mul (m.sub x y) m.pi) (m.lit 180)) (m.lit 2)) =
          neg (m.sin (m.div (m.div (m.mul (m.sub y x) m.pi) (m.lit 180)) (m.lit 2))) ∨
        m.sin (m.div (m.div (m.mul (m.sub x y) m.pi) (m.lit 180)) (m.lit 2)) =
          m.sin (m.div (m.div (m.mul (m.sub y x) m.pi) (m.lit 180)) (m.lit 2)) := by
    intro x y
    rcases h.sub_swap x y with e | e
    · left
      rw [e, h.neg_mul, h.neg_div, h.neg_div, h.sin_neg]
    · right
      rw [e]
  have sq : ∀ x y : α,
      m.mul (m.sin (m.div (m.div (m.mul (m.sub x y) m.pi) (m.lit 180)) (m.lit 2)))
          (m.sin (m.div (m.div (m.mul (m.sub x y) m.pi) (m.lit 180)) (m.lit 2))) =
        m.mul (m.sin (m.div (m.div (m.mul (m.sub y x) m.pi) (m.lit 180)) (m.lit 2)))
          (m.sin (m.div (m.div (m.mul (m.sub y x) m.pi) (m.lit 180)) (m.lit 2))) := by
    intro x y
    rcases half x y with e | e
    · rw [e, h.neg_mul_neg]
    · rw [e]
  have cross : ∀ (c : α) (x y : α),
      m.mul (m.mul c (m.sin (m.div (m.div (m.mul (m.sub x y) m.pi) (m.lit 180)) (m.lit 2))))
          (m.sin (m.div (m.div (m.mul (m.sub x y) m.pi) (m.lit 180)) (m.lit 2))) =
        m.mul (m.mul c (m.sin (m.div (m.div (m.mul (m.sub y x) m.pi) (m.lit 180)) (m.lit 2))))
          (m.sin (m.div (m.div (m.mul (m.sub y x) m.pi) (m.lit 180)) (m.lit 2))) := by
    intro c x y
    rcases half x y with e | e
    · rw [e, h.mul_comm c (neg _), h.neg_mul, h.neg_mul_neg, h.mul_comm _ c]
    · rw [e]
  unfold getDistance
  simp only []
  rw [sq lat2 lat1, cross _ lon2 lon1,
    h.mul_comm (m.cos (m.div (m.mul lat1 m.pi) (m.lit 180)))
      (m.cos (m.div (m.mul lat2 m.pi) (m.lit 180)))]

/-! ## Exact real arithmetic -/

theorem realMath_oddArith : OddArith realMath (fun x => -x) where
  sub_swap := fun a b => Or.inl (by simp [realMath])
  neg_mul := fun a b => by simp [realMath]
  neg_div := fun a b => by simp [realMath, neg_div]
  sin_neg := fun a => by simp [realMath]
  neg_mul_neg := fun a b => by simp [realMath]
  mul_comm := fun a b => by simp [realMath, mul_comm]

theorem arg_sqrt_sin_cos (θ : ℝ) (h0 : 0 ≤ θ) (h1 : θ ≤ Real.pi / 2) :
    Complex.arg ⟨Real.sqrt (1 - Real.sin θ * Real.sin θ), Real.sqrt (Real.sin θ * Real.sin θ)⟩
      = θ := by
  have hs : 0 ≤ Real.sin θ := Real.sin_nonneg_of_nonneg_of_le_pi h0 (by linarith [Real.pi_pos])
  have hc : 0 ≤ Real.cos θ := Real.cos_nonneg_of_mem_Icc ⟨by linarith [Real.pi_pos], h1⟩
  have e1 : Real.sqrt (Real.sin θ * Real.sin θ) = Real.sin θ := Real.sqrt_mul_self hs
  have e2 : Real.sqrt (1 - Real.sin θ * Real.sin θ) = Real.cos θ := by
    have : 1 - Real.sin θ * Real.sin θ = Real.cos θ * Real.cos θ := by
      nlinarith [Real.sin_sq_add_cos_sq θ]
    rw [this, Real.sqrt_mul_self hc]
  rw [e1, e2]
  have e3 : (⟨Real.cos θ, Real.sin θ⟩ : ℂ) = Complex.cos θ + Complex.sin θ * Complex.I := by
    apply Complex.ext <;> simp [Complex.cos_ofReal_re, Complex.sin_ofReal_re]
  rw [e3, Complex.arg_cos_add_sin_mul_I]
  constructor <;> linarith [Real.pi_pos]

/-- Along a meridian, northwards, the haversine distance over the reals is the arc
length `6371 * Δlat * π / 180`. -/
theorem getDistance_realMath_same_lon (lat1 lat2 lon : ℝ) (h0 : lat1 ≤ lat2)
    (h1 : lat2 - lat1 ≤ 180) :
    getDistance realMath lat1 lon lat2 lon = 6371 * ((lat2 - lat1) * Real.pi / 180) := by
  have hθ0 : 0 ≤ (lat2 - lat1) * Real.pi / 180 / 2 := by
    have := Real.pi_pos
    have : 0 ≤ (lat2 - lat1) * Real.pi := mul_nonneg (by linarith) this.le
    linarith
  have hθ1 : (lat2 - lat1) * Real.pi / 180 / 2 ≤ Real.pi / 2 := by
    have := Real.pi_pos
    have : (lat2 - lat1) * Real.pi ≤ 180 * Real.pi := mul_le_mul_of_nonneg_right h1 this.le
    linarith
  have key := arg_sqrt_sin_cos _ hθ0 hθ1
  simp only [getDistance, realMath, sub_self, zero_mul, zero_div, Real.sin_zero, mul_zero,
    add_zero, Nat.cast_ofNat, Nat.cast_one]
  rw [key]
  ring

/-- Outlet 3 is within 5 km of outlet 1: the distance is `6371 * 0.044 * π / 180`,
about 4.89 km. -/
theorem outlet3_near_outlet1 :
    realMath.le (getDistance realMath (realMath.parseFloat outlet1.latitude)
      (realMath.parseFloat outlet1.longitude) (realMath.parseFloat outlet3.latitude)
      (realMath.parseFloat outlet3.longitude)) (realMath.lit 5) = true := by
  have hd : getDistance realMath (3.0 : ℝ) 101.0 3.044 101.0
      = 6371 * ((3.044 - 3.0) * Real.pi / 180) :=
    getDistance_realMath_same_lon _ _ _ (by norm_num) (by norm_num)
  have hpi := Real.pi_lt_d2
  show decide (getDistance realMath (3.0 : ℝ) 101.0 3.044 101.0 ≤ ((5 : ℕ) : ℝ)) = true
  rw [hd, decide_eq_true_eq]
  norm_num
  linarith

theorem scenario5_find_outlet1 :
    scenario5.outlets.find? (fun x => x.id == 1) = some outlet1 := by
  simp [scenario5, loaded, List.find?, outlet1]

theorem scenario5_within :
    isWithinRadius realMath scenario5.outlets outlet3 1 = true := by
  rw [isWithinRadius_eq_true_iff]
  exact ⟨by simp [outlet3], outlet1, scenario5_find_outlet1, outlet3_near_outlet1⟩

/-! ## Witnesses and further claims -/

/-- Scenario 5: outlet 3, in neither list and within 5 km of the selected outlet 1, is
red and has no circle. -/
theorem shouldShowCircle_iff_witness :
    isMarkerRed realMath scenario5 outlet3 = true ∧ shouldShowCircle scenario5 outlet3 = false :=
  (shouldShowCircle_iff realMath scenario5 outlet3).2 rfl
    (by simp [scenario5, outlet3]) (by simp [scenario5, loaded, outlet3])
    ⟨1, by simp [scenario5], scenario5_within⟩

/-- In scenario 5, `isWithinRadius(outlet3, 1)` holds through the distance test. -/
theorem isWithinRadius_spec_witness :
    isWithinRadius realMath scenario5.outlets outlet3 1 = true :=
  ((isWithinRadius_spec realMath scenario5.outlets outlet3 1).2.2.2 outlet1
    (by simp [outlet3]) scenario5_find_outlet1).mpr outlet3_near_outlet1

/-- The real arithmetic obeys the sign laws, and the distance between outlets 1 and 2 is
the same in both directions. -/
theorem getDistance_symm_witness :
    OddArith realMath (fun x => -x) ∧
      getDistance realMath (3.0 : ℝ) 101.0 3.01 101.01
        = getDistance realMath (3.01 : ℝ) 101.01 3.0 101.0 :=
  ⟨realMath_oddArith, getDistance_symm realMath (fun x => -x) realMath_oddArith _ _ _ _⟩

/-- C5: `handleChatResult(data)` sets `selectedIds` to `data.related_ids` itself when that
list is non-empty, and to the empty list when it is absent or empty, whatever
`selectedIds` was. -/
theorem handleChatResult_selectedIds {κ : Type} (s : State κ) (data : ChatData) :
    (∀ ids, data.related_ids = some ids → ids ≠ [] →
      (handleChatResult s data).selectedIds = ids) ∧
    (data.related_ids = none → (handleChatResult s data).selectedIds = []) ∧
    (data.related_ids = some [] → (handleChatResult s data).selectedIds = []) := by
  refine ⟨?_, ?_, ?_⟩
  · intro ids h hne
    have hlen : ids.length > 0 := List.length_pos.mpr hne
    simp [handleChatResult, h, hlen]
  · intro h
    simp [handleChatResult, h]
  · intro h
    simp [handleChatResult, h]

/-- A chat response `related_ids: [2, 1, 2]` replaces the selection `[7]` by `[2, 1, 2]`,
order and repetitions kept. -/
theorem handleChatResult_selectedIds_witness :
    (handleChatResult { State.initial Unit with selectedIds := [7] }
      { related_ids := some [2, 1, 2] }).selectedIds = [2, 1, 2] :=
  (handleChatResult_selectedIds { State.initial Unit with selectedIds := [7] }
    { related_ids := some [2, 1, 2] }).1 [2, 1, 2] rfl (by decide)

/-- C6: toggling the same id twice through `onToggleId` gives back a `selectedIds` with
the same members as before. -/
theorem onToggleId_twice_mem {κ : Type} (s : State κ) (id x : Int) :
    x ∈ (onToggleId (onToggleId s id) id).selectedIds ↔ x ∈ s.selectedIds := by
  show x ∈ toggleIds (toggleIds s.selectedIds id) id ↔ x ∈ s.selectedIds
  by_cases hx : x = id
  · subst hx
    by_cases hm : x ∈ s.selectedIds
    · have h1 : x ∉ toggleIds s.selectedIds x := not_mem_toggleIds_of_mem _ _ hm
      have h2 : x ∈ toggleIds (toggleIds s.selectedIds x) x := mem_toggleIds_of_not_mem _ _ h1
      exact ⟨fun _ => hm, fun _ => h2⟩
    · have h1 : x ∈ toggleIds s.selectedIds x := mem_toggleIds_of_not_mem _ _ hm
      have h2 : x ∉ toggleIds (toggleIds s.selectedIds x) x := not_mem_toggleIds_of_mem _ _ h1
      exact ⟨fun h => absurd h h2, fun h => absurd h hm⟩
  · rw [mem_toggleIds_of_ne _ _ _ hx, mem_toggleIds_of_ne _ _ _ hx]

/-- C7: after `handlePopupClose(id)`, `id` is in neither `openPopupIds` nor `selectedIds`,
and every other id is in each list exactly when it was before. -/
theorem handlePopupClose_spec {κ : Type} (s : State κ) (id : Int) :
    id ∉ (handlePopupClose s id).openPopupIds ∧
    id ∉ (handlePopupClose s id).selectedIds ∧
    ∀ x, x ≠ id →
      (x ∈ (handlePopupClose s id).openPopupIds ↔ x ∈ s.openPopupIds) ∧
      (x ∈ (handlePopupClose s id).selectedIds ↔ x ∈ s.selectedIds) := by
  by_cases hm : id ∈ s.selectedIds
  · have e1 : (handlePopupClose s id).openPopupIds
        = s.openPopupIds.filter (fun popupId => popupId != id) := by
      simp [handlePopupClose, hm, onToggleId]
    have e2 : (handlePopupClose s id).selectedIds = toggleIds s.selectedIds id := by
      simp [handlePopupClose, hm, onToggleId]
    rw [e1, e2]
    refine ⟨by simp, not_mem_toggleIds_of_mem _ _ hm, fun x hx => ⟨by simp [hx], ?_⟩⟩
    exact mem_toggleIds_of_ne _ _ _ hx
  · have e1 : (handlePopupClose s id).openPopupIds
        = s.openPopupIds.filter (fun popupId => popupId != id) := by
      simp [handlePopupClose, hm]
    have e2 : (handlePopupClose s id).selectedIds = s.selectedIds := by
      simp [handlePopupClose, hm]
    rw [e1, e2]
    exact ⟨by simp, hm, fun x hx => ⟨by simp [hx], Iff.rfl⟩⟩

/-! ## Commits with an empty selection -/

theorem effect6_selectedIds {α β κ : Type} (snap cur : State κ) :
    (effect6 snap cur : State κ × List (MapCall α β)).1.selectedIds = cur.selectedIds := by
  unfold effect6
  split <;> rfl

theorem effect7_selectedIds {κ : Type} (snap cur : State κ) :
    (effect7 snap cur).selectedIds = cur.selectedIds := by
  unfold effect7
  simp only []
  split <;> rfl

theorem effect7_openPopupIds {κ : Type} (snap cur : State κ) :
    (effect7 snap cur).openPopupIds = cur.openPopupIds := by
  unfold effect7
  simp only []
  split <;> rfl

theorem effect8_of_selectedIds_nil {α β κ : Type} (m : JsMath α κ) (L : Leaflet α β)
    (snap cur : State κ) (h : snap.selectedIds = []) :
    effect8 m L snap cur = (cur, []) := by
  unfold effect8
  simp [h]

theorem effect6_openPopupIds_of_nil {α β κ : Type} (s : State κ) (h : s.selectedIds = []) :
    (effect6 s s : State κ × List (MapCall α β)).1.openPopupIds = [] := by
  unfold effect6
  cases hp : s.openPopupIds with
  | nil => simp [h, hp]
  | cons a l => simp [h, hp]

/-- A commit never writes `selectedIds`. -/
theorem commit_selectedIds {α β κ : Type} (m : JsMath α κ) (L : Leaflet α β) (d : Deps)
    (s : State κ) (h : s.selectedIds = []) :
    (commit m L d s).1.selectedIds = [] := by
  unfold commit
  simp only [effect8_of_selectedIds_nil m L s _ h]
  cases d.d6 <;> cases d.d7 <;> cases d.d8 <;>
    simp [effect6_selectedIds, effect7_selectedIds, h]

/-- With nothing selected and no popup open, a commit opens no popup. -/
theorem commit_openPopupIds_of_nil {α β κ : Type} (m : JsMath α κ) (L : Leaflet α β)
    (d : Deps) (s : State κ) (h : s.selectedIds = []) (hp : s.openPopupIds = []) :
    (commit m L d s).1.openPopupIds = [] := by
  unfold commit
  simp only [effect8_of_selectedIds_nil m L s _ h]
  cases d.d6 <;> cases d.d7 <;> cases d.d8 <;>
    simp [effect6_openPopupIds_of_nil, effect7_openPopupIds, h, hp]

/-- With nothing selected, the commit that runs all three effects closes every popup. -/
theorem commit_all_openPopupIds {α β κ : Type} (m : JsMath α κ) (L : Leaflet α β)
    (s : State κ) (h : s.selectedIds = []) :
    (commit m L Deps.all s).1.openPopupIds = [] := by
  unfold commit
  simp [Deps.all, effect8_of_selectedIds_nil m L s _ h, effect7_openPopupIds,
    effect6_openPopupIds_of_nil s h]

theorem commits_of_nil {α β κ : Type} (m : JsMath α κ) (L : Leaflet α β) (ds : List Deps) :
    ∀ s : State κ, s.selectedIds = [] → s.openPopupIds = [] →
      (commits m L ds s).1.selectedIds = [] ∧ (commits m L ds s).1.openPopupIds = [] := by
  induction ds with
  | nil => intro s h hp; exact ⟨h, hp⟩
  | cons d ds ih =>
    intro s h hp
    exact ih _ (commit_selectedIds m L d s h) (commit_openPopupIds_of_nil m L d s h hp)

/-- From a state with nothing selected, the commit running all three effects followed by
any further commits leaves no popup open, no red marker and no circle. -/
theorem sync_of_selectedIds_nil {α β κ : Type} (m : JsMath α κ) (L : Leaflet α β)
    (ds : List Deps) (s : State κ) (h : s.selectedIds = []) :
    (commits m L (Deps.all :: ds) s).1.openPopupIds = [] ∧
    ∀ (o : Outlet κ) (b : Bool),
      isMarkerRed m { (commits m L (Deps.all :: ds) s).1 with show5kmRadius := b } o = false ∧
      shouldShowCircle { (commits m L (Deps.all :: ds) s).1 with show5kmRadius := b } o
        = false := by
  have hc := commits_of_nil m L ds (commit m L Deps.all s).1
    (commit_selectedIds m L Deps.all s h) (commit_all_openPopupIds m L s h)
  have e : (commits m L (Deps.all :: ds) s).1 = (commits m L ds (commit m L Deps.all s).1).1 := rfl
  rw [e]
  refine ⟨hc.2, fun o b => ⟨?_, ?_⟩⟩
  · simp [isMarkerRed, hc.1, hc.2]
  · simp [shouldShowCircle, hc.1, hc.2]

/-- C8: once `selectedIds` is emptied, by `clearAll` or by a chat result whose
`related_ids` is absent or empty, the commit that runs the three effects, followed by any
further commits, leaves `openPopupIds` empty, and `isMarkerRed` and `shouldShowCircle`
false for every outlet under either value of `show5kmRadius`. -/
theorem clear_then_sync {α β κ : Type} (m : JsMath α κ) (L : Leaflet α β) (ds : List Deps)
    (s : State κ) :
    ((commits m L (Deps.all :: ds) (clearAll s)).1.openPopupIds = [] ∧
      ∀ (o : Outlet κ) (b : Bool),
        isMarkerRed m
          { (commits m L (Deps.all :: ds) (clearAll s)).1 with show5kmRadius := b } o = false ∧
        shouldShowCircle
          { (commits m L (Deps.all :: ds) (clearAll s)).1 with show5kmRadius := b } o = false) ∧
    ((commits m L (Deps.all :: ds)
        (handleChatResult s { related_ids := some [] })).1.openPopupIds = [] ∧
      ∀ (o : Outlet κ) (b : Bool),
        isMarkerRed m
          { (commits m L (Deps.all :: ds) (handleChatResult s { related_ids := some [] })).1
            with show5kmRadius := b } o = false ∧
        shouldShowCircle
          { (commits m L (Deps.all :: ds) (handleChatResult s { related_ids := some [] })).1
            with show5kmRadius := b } o = false) ∧
    ((commits m L (Deps.all :: ds)
        (handleChatResult s { related_ids := none })).1.openPopupIds = [] ∧
      ∀ (o : Outlet κ) (b : Bool),
        isMarkerRed m
          { (commits m L (Deps.all :: ds) (handleChatResult s { related_ids := none })).1
            with show5kmRadius := b } o = false ∧
        shouldShowCircle
          { (commits m L (Deps.all :: ds) (handleChatResult s { related_ids := none })).1
            with show5kmRadius := b } o = false) :=
  ⟨sync_of_selectedIds_nil m L ds (clearAll s) rfl,
    sync_of_selectedIds_nil m L ds (handleChatResult s { related_ids := some [] }) rfl,
    sync_of_selectedIds_nil m L ds (handleChatResult s { related_ids := none }) rfl⟩

/-! ## The viewport effect on a chat-originated selection -/

theorem mem_addPopupId_self (prev : List Int) (id : Int) : id ∈ addPopupId prev id := by
  unfold addPopupId
  by_cases h : id ∈ prev <;> simp [h]

theorem mem_addPopupId_of_mem (prev : List Int) (id x : Int) (h : x ∈ prev) :
    x ∈ addPopupId prev id := by
  unfold addPopupId
  split
  · exact List.mem_append_left _ h
  · exact h

theorem mem_foldl_addPopupId_of_mem {κ : Type} (sel : List (Outlet κ)) :
    ∀ (init : List Int) (x : Int), x ∈ init →
      x ∈ sel.foldl (fun prev o => addPopupId prev o.id) init := by
  induction sel with
  | nil => intro init x h; exact h
  | cons a l ih =>
    intro init x h
    exact ih _ x (mem_addPopupId_of_mem init a.id x h)

theorem mem_foldl_addPopupId {κ : Type} (sel : List (Outlet κ)) :
    ∀ (init : List Int) (o : Outlet κ), o ∈ sel →
      o.id ∈ sel.foldl (fun prev o => addPopupId prev o.id) init := by
  induction sel with
  | nil => intro init o h; cases h
  | cons a l ih =>
    intro init o h
    rcases List.mem_cons.mp h with e | hl
    · subst e
      exact mem_foldl_addPopupId_of_mem l _ _ (mem_addPopupId_self init o.id)
    · exact ih _ o hl

/-- What effect 8 does when the map is ready, the latch is down, the selection counts as
chat-originated and it resolves to at least one outlet. -/
theorem effect8_chat {α β κ : Type} (m : JsMath α κ) (L : Leaflet α β) (s : State κ)
    (hmap : s.mapReady = true) (hz : s.hasZoomed = false) (hchat : isChatboxSearch s = true)
    (hsel : s.outlets.filter (fun o => s.selectedIds.contains o.id) ≠ []) :
    effect8 m L s s =
      ({ s with
          hasZoomed := true
          openPopupIds :=
            (s.outlets.filter (fun o => s.selectedIds.contains o.id)).foldl
              (fun prev o => addPopupId prev o.id) s.openPopupIds },
        (if (s.outlets.filter (fun o => s.selectedIds.contains o.id)).length > 1 then
          if L.isValid (L.latLngBounds ((s.outlets.filter
              (fun o => s.selectedIds.contains o.id)).map
              (fun o => (m.parseFloat o.latitude, m.parseFloat o.longitude)))) then
            [MapCall.fitBounds (L.latLngBounds ((s.outlets.filter
              (fun o => s.selectedIds.contains o.id)).map
              (fun o => (m.parseFloat o.latitude, m.parseFloat o.longitude)))) (50, 50) true 1]
          else []
        else if (s.outlets.filter (fun o => s.selectedIds.contains o.id)).length == 1 then
          match (s.outlets.filter (fun o => s.selectedIds.contains o.id)).map
              (fun o => (m.parseFloat o.latitude, m.parseFloat o.longitude)) with
          | (lat, lng) :: _ =>
            if !m.isNaN lat && !m.isNaN lng then [MapCall.setView lat lng zoomLevel true 1]
            else []
          | [] => []
        else []) ++
        (s.outlets.filter (fun o => s.selectedIds.contains o.id)).map
          (fun o => MapCall.openPopup o.id)) := by
  have hout : s.outlets ≠ [] := by
    intro h
    rw [h] at hsel
    exact hsel rfl
  have hids : s.selectedIds ≠ [] := by
    intro h
    apply hsel
    rw [h]
    simp
  have h1 : s.outlets.length ≠ 0 := fun h => hout (List.length_eq_zero.mp h)
  have h2 : s.selectedIds.length ≠ 0 := fun h => hids (List.length_eq_zero.mp h)
  have h3 : (s.outlets.filter (fun o => s.selectedIds.contains o.id)).length ≠ 0 :=
    fun h => hsel (List.length_eq_zero.mp h)
  unfold effect8
  simp only [hmap, hz, hchat, Bool.not_true, Bool.false_or, beq_iff_eq, h1, h2, h3,
    if_false, Bool.not_false, if_true]

theorem filter_isCamera_openPopups {α β κ : Type} (sel : List (Outlet κ)) :
    (sel.map (fun o => (MapCall.openPopup o.id : MapCall α β))).filter MapCall.isCamera
      = [] := by
  induction sel with
  | nil => rfl
  | cons a l ih => simp [List.filter, MapCall.isCamera, ih]

/-- C9: when effect 8 resolves a pending auto-zoom for a chat-originated selection (map
ready, latch down, numeric coordinates, bounds of numeric points valid): with exactly one
selected outlet the only camera call is `setView` to its coordinates at zoom 14, animated
over 1 second; with more than one the only camera call is `fitBounds` on the bounds of all
selected outlets' coordinates with padding 50; every selected outlet's id is in
`openPopupIds` afterwards, and the latch is up. -/
theorem effect8_chat_camera {α β κ : Type} (m : JsMath α κ) (L : Leaflet α β) (s : State κ)
    (hmap : s.mapReady = true) (hz : s.hasZoomed = false) (hchat : isChatboxSearch s = true)
    (hnum : ∀ o ∈ s.outlets,
      m.isNaN (m.parseFloat o.latitude) = false ∧ m.isNaN (m.parseFloat o.longitude) = false)
    (hL : ∀ pts : List (α × α), pts ≠ [] →
      (∀ p ∈ pts, m.isNaN p.1 = false ∧ m.isNaN p.2 = false) →
        L.isValid (L.latLngBounds pts) = true) :
    (∀ o, s.outlets.filter (fun x => s.selectedIds.contains x.id) = [o] →
      (effect8 m L s s).2.filter MapCall.isCamera =
        [MapCall.setView (m.parseFloat o.latitude) (m.parseFloat o.longitude) 14 true 1]) ∧
    (1 < (s.outlets.filter (fun x => s.selectedIds.contains x.id)).length →
      (effect8 m L s s).2.filter MapCall.isCamera =
        [MapCall.fitBounds
          (L.latLngBounds ((s.outlets.filter (fun x => s.selectedIds.contains x.id)).map
            (fun x => (m.parseFloat x.latitude, m.parseFloat x.longitude))))
          (50, 50) true 1]) ∧
    (∀ o ∈ s.outlets.filter (fun x => s.selectedIds.contains x.id),
      o.id ∈ (effect8 m L s s).1.openPopupIds ∧ (effect8 m L s s).1.hasZoomed = true) := by
  refine ⟨?_, ?_, ?_⟩
  · intro o ho
    have hsel : s.outlets.filter (fun x => s.selectedIds.contains x.id) ≠ [] := by
      rw [ho]; simp
    have hmem : o ∈ s.outlets := by
      have : o ∈ s.outlets.filter (fun x => s.selectedIds.contains x.id) := by
        rw [ho]; simp
      exact (List.mem_filter.mp this).1
    obtain ⟨n1, n2⟩ := hnum o hmem
    rw [effect8_chat m L s hmap hz hchat hsel, ho]
    simp [MapCall.isCamera, n1, n2, zoomLevel, List.filter]
  · intro hlen
    have hsel : s.outlets.filter (fun x => s.selectedIds.contains x.id) ≠ [] := by
      intro h
      rw [h] at hlen
      simp at hlen
    have hpts : (s.outlets.filter (fun x => s.selectedIds.contains x.id)).map
        (fun x => (m.parseFloat x.latitude, m.parseFloat x.longitude)) ≠ [] := by
      intro h
      exact hsel (List.map_eq_nil_iff.mp h)
    have hvalid := hL _ hpts (by
      intro p hp
      obtain ⟨x, hx, rfl⟩ := List.mem_map.mp hp
      exact hnum x (List.mem_filter.mp hx).1)
    rw [effect8_chat m L s hmap hz hchat hsel]
    simp only [hlen, hvalid, if_true, List.filter_append, filter_isCamera_openPopups,
      List.append_nil]
    simp [List.filter, MapCall.isCamera]
  · intro o ho
    have hsel : s.outlets.filter (fun x => s.selectedIds.contains x.id) ≠ [] :=
      List.ne_nil_of_mem ho
    rw [effect8_chat m L s hmap hz hchat hsel]
    exact ⟨mem_foldl_addPopupId _ _ o ho, rfl⟩

theorem realLeaflet_valid (pts : List (ℝ × ℝ)) (h : pts ≠ []) :
    realLeaflet.isValid (realLeaflet.latLngBounds pts) = true := by
  have some_stays : ∀ (l : List (ℝ × ℝ)) (b : (ℝ × ℝ) × (ℝ × ℝ)),
      (l.foldl
        (fun b p =>
          match b with
          | none => some (p, p)
          | some (sw, ne) =>
            some ((min sw.1 p.1, min sw.2 p.2), (max ne.1 p.1, max ne.2 p.2)))
        (some b)).isSome = true := by
    intro l
    induction l with
    | nil => intro b; rfl
    | cons a l ih => intro b; exact ih _
  cases pts with
  | nil => exact absurd rfl h
  | cons a l => exact some_stays l (a, a)

/-- Scenarios 1 and 2 on the loaded map: with outlet 1 selected by the chat, effect 8
issues `setView(3.0, 101.0)` at zoom 14 as its only camera call and opens popup 1; with
outlets 1 and 2 selected, its only camera call is `fitBounds` on the box from
`(3.0, 101.0)` to `(3.01, 101.01)`, and popup 2 is open afterwards. -/
theorem effect8_chat_camera_witness :
    ((effect8 realMath realLeaflet { loaded with selectedIds := [1] }
        { loaded with selectedIds := [1] }).2.filter MapCall.isCamera
      = [MapCall.setView (3.0 : ℝ) 101.0 14 true 1] ∧
    (1 : Int) ∈ (effect8 realMath realLeaflet { loaded with selectedIds := [1] }
        { loaded with selectedIds := [1] }).1.openPopupIds) ∧
    ((effect8 realMath realLeaflet { loaded with selectedIds := [1, 2] }
        { loaded with selectedIds := [1, 2] }).2.filter MapCall.isCamera
      = [MapCall.fitBounds (some (((3.0 : ℝ), (101.0 : ℝ)), ((3.01 : ℝ), (101.01 : ℝ))))
          (50, 50) true 1] ∧
    (2 : Int) ∈ (effect8 realMath realLeaflet { loaded with selectedIds := [1, 2] }
        { loaded with selectedIds := [1, 2] }).1.openPopupIds) := by
  have h1 := effect8_chat_camera realMath realLeaflet { loaded with selectedIds := [1] }
    rfl rfl (by simp [isChatboxSearch, loaded])
    (fun _ _ => ⟨rfl, rfl⟩) (fun pts hp _ => realLeaflet_valid pts hp)
  have h2 := effect8_chat_camera realMath realLeaflet { loaded with selectedIds := [1, 2] }
    rfl rfl (by simp [isChatboxSearch, loaded])
    (fun _ _ => ⟨rfl, rfl⟩) (fun pts hp _ => realLeaflet_valid pts hp)
  have hf1 : ({ loaded with selectedIds := [1] } : State ℝ).outlets.filter
      (fun x => ({ loaded with selectedIds := [1] } : State ℝ).selectedIds.contains x.id)
        = [outlet1] := by
    simp [loaded, List.filter, outlet1, outlet2, outlet3]
  have hf2 : ({ loaded with selectedIds := [1, 2] } : State ℝ).outlets.filter
      (fun x => ({ loaded with selectedIds := [1, 2] } : State ℝ).selectedIds.contains x.id)
        = [outlet1, outlet2] := by
    simp [loaded, List.filter, outlet1, outlet2, outlet3]
  have hb : realLeaflet.latLngBounds
      ([outlet1, outlet2].map
        (fun x => (realMath.parseFloat x.latitude, realMath.parseFloat x.longitude)))
        = some (((3.0 : ℝ), (101.0 : ℝ)), ((3.01 : ℝ), (101.01 : ℝ))) := by
    have e1 : min (3.0 : ℝ) 3.01 = 3.0 := min_eq_left (by norm_num)
    have e2 : min (101.0 : ℝ) 101.01 = 101.0 := min_eq_left (by norm_num)
    have e3 : max (3.0 : ℝ) 3.01 = 3.01 := max_eq_right (by norm_num)
    have e4 : max (101.0 : ℝ) 101.01 = 101.01 := max_eq_right (by norm_num)
    simp only [realLeaflet, realMath, outlet1, outlet2, List.map, List.foldl, e1, e2, e3, e4]
  refine ⟨⟨h1.1 outlet1 hf1, (h1.2.2 outlet1 ?_).1⟩, ⟨?_, (h2.2.2 outlet2 ?_).1⟩⟩
  · rw [hf1]
    simp
  · have h := h2.2.1 (by rw [hf2]; simp)
    rw [hf2, hb] at h
    exact h
  · rw [hf2]
    simp

/-! ## Duplicates in the selection -/

theorem toggleIds_nodup (prev : List Int) (id : Int) (h : prev.Nodup) :
    (toggleIds prev id).Nodup := by
  unfold toggleIds
  by_cases hm : id ∈ prev
  · have hc : prev.contains id = true := by simp [hm]
    rw [if_pos hc]
    exact h.filter _
  · have hc : ¬ prev.contains id = true := by simp [hm]
    rw [if_neg hc]
    exact List.Nodup.append h (List.nodup_singleton id) (by simpa using hm)

/-- C10, as stated, fails: from the initial state the chat response `related_ids: [1, 1]`
is a reachable step and leaves `selectedIds = [1, 1]`, with id 1 twice. -/
theorem selectedIds_duplicate_reachable :
    ReachableSel (fun _ => True)
        (handleChatResult (State.initial Unit) { related_ids := some [1, 1] }).selectedIds ∧
      ¬ (handleChatResult (State.initial Unit) { related_ids := some [1, 1] }).selectedIds.Nodup :=
  ⟨ReachableSel.chat _ _ ReachableSel.init trivial, by decide⟩

/-- C10, amended: in every state reachable from the initial empty selection through
`handleChatResult` with duplicate-free `related_ids` lists, `onToggleId` and `clearAll`,
`selectedIds` has no duplicate. -/
theorem selectedIds_nodup (ids : List Int)
    (h : ReachableSel (fun data => ∀ l, data.related_ids = some l → l.Nodup) ids) :
    ids.Nodup := by
  induction h with
  | init => exact List.nodup_nil
  | chat s data _ hP _ =>
    cases hr : data.related_ids with
    | none => simp [handleChatResult, hr]
    | some l =>
      by_cases hl : l.length > 0
      · simpa [handleChatResult, hr, hl] using hP l hr
      · simp [handleChatResult, hr, hl]
  | toggle s id _ ih => exact toggleIds_nodup _ _ ih
  | clear s _ _ => exact List.nodup_nil

/-- The selection `[1, 5]`, reached by the chat response `related_ids: [1, 2]` followed
by toggling 2 and then 5, has no duplicate. -/
theorem selectedIds_nodup_witness :
    (onToggleId (onToggleId
      (handleChatResult (State.initial Unit) { related_ids := some [1, 2] }) 2) 5).selectedIds
        = [1, 5] ∧
    (onToggleId (onToggleId
      (handleChatResult (State.initial Unit) { related_ids := some [1, 2] }) 2) 5).selectedIds.Nodup :=
  ⟨by decide,
    selectedIds_nodup _
      (ReachableSel.toggle _ 5
        (ReachableSel.toggle _ 2
          (ReachableSel.chat _ _ ReachableSel.init
            (fun l hl => by cases hl; decide))))⟩

/-! ## The chat session -/

/-- C11: for a non-blank input, when the query fails (`fetch` is rejected, or the body
cannot be parsed), `handleSend` leaves the message log equal to the previous log followed
by the user message with the trimmed text and the fixed fallback assistant message, passes
nothing to `onChatResult`, and leaves the application state, `selectedIds` included,
as it was. -/
theorem handleSend_failure {κ : Type} (trim : String → String) (c : ChatUI) (s : State κ)
    (res : QueryResult) (hinput : trim c.input ≠ "")
    (hres : res = QueryResult.rejected ∨ res = QueryResult.unparsable) :
    (handleSend trim res c s).1.messages =
        c.messages ++ [{ role := Role.user, content := some (trim c.input) }, fallbackMessage] ∧
      (handleSend trim res c s).2.2 = [] ∧
      (handleSend trim res c s).2.1 = s ∧
      (handleSend trim res c s).2.1.selectedIds = s.selectedIds := by
  have hstart : handleSendStart trim c =
      some { c with
        messages := c.messages ++ [{ role := Role.user, content := some (trim c.input) }]
        loading := true } := by
    unfold handleSendStart
    rw [if_neg hinput]
  unfold handleSend
  rw [hstart]
  rcases hres with h | h <;> subst h <;> simp [handleSendResume]

/-- With `" pizza "` typed after the greeting and the selection `[7]`, a rejected `fetch`
leaves the log greeting, user message `"pizza"`, fallback message, and the selection
`[7]`. -/
theorem handleSend_failure_witness :
    (handleSend trimBlanks QueryResult.rejected typedPizza
        { State.initial Unit with selectedIds := [7] }).1.messages =
      [{ role := Role.assistant, content := some "Hello!" },
        { role := Role.user, content := some "pizza" }, fallbackMessage] ∧
    (handleSend trimBlanks QueryResult.rejected typedPizza
        { State.initial Unit with selectedIds := [7] }).2.1.selectedIds = [7] :=
  have h := handleSend_failure trimBlanks typedPizza
    { State.initial Unit with selectedIds := [7] } QueryResult.rejected
    (by decide) (Or.inl rfl)
  ⟨h.1, h.2.2.2⟩

/-! ## The marker render loop -/

/-- The render loop skips an outlet with a falsy latitude or longitude. -/
theorem renderOutlet_of_falsy {α κ : Type} (m : JsMath α κ) (truthy : κ → Bool)
    (s : State κ) (o : Outlet κ)
    (h : truthy o.latitude = false ∨ truthy o.longitude = false) :
    renderOutlet m truthy s o = none := by
  unfold renderOutlet
  rcases h with h | h <;> simp [h]

/-- The render loop returns a marker for every outlet whose two fields are truthy. -/
theorem renderOutlet_of_truthy {α κ : Type} (m : JsMath α κ) (truthy : κ → Bool)
    (s : State κ) (o : Outlet κ)
    (h1 : truthy o.latitude = true) (h2 : truthy o.longitude = true) :
    renderOutlet m truthy s o =
      some { position := (m.parseFloat o.latitude, m.parseFloat o.longitude),
             markerIsRed := isMarkerRed m s o, showCircle := shouldShowCircle s o } := by
  unfold renderOutlet
  simp [h1, h2]

/-- C12 fails on the code: the outlet `{id: 1, latitude: "abc", longitude: 101}` has a
non-numeric latitude (`parseFloat` gives `NaN`), yet the render loop does not skip it and
returns a marker at `[NaN, 101]`; the outlet without a latitude is skipped. -/
theorem renderOutlet_text_latitude :
    nanMath.isNaN (nanMath.parseFloat textOutlet.latitude) = true ∧
      renderOutlet nanMath RawField.truthy rawLoaded textOutlet =
        some { position := (none, some 101), markerIsRed := false, showCircle := false } ∧
      renderOutlet nanMath RawField.truthy rawLoaded bareOutlet = none := by
  have hp : parseDecimal "abc" = none := by decide
  have hnan : nanMath.parseFloat textOutlet.latitude = none := by
    show (parseDecimal "abc").map (fun q => (q : ℝ)) = none
    rw [hp]
    rfl
  have hlon : nanMath.parseFloat textOutlet.longitude = some 101 := by
    show some (((101 : ℚ) : ℝ)) = some 101
    norm_num
  refine ⟨?_, ?_, ?_⟩
  · rw [hnan]
    rfl
  · rw [renderOutlet_of_truthy nanMath RawField.truthy rawLoaded textOutlet
      (by decide) (by decide), hnan, hlon]
    have hr : isMarkerRed nanMath rawLoaded textOutlet = false := by
      simp [isMarkerRed, rawLoaded, State.initial]
    have hc : shouldShowCircle rawLoaded textOutlet = false := by
      simp [shouldShowCircle, rawLoaded, State.initial]
    rw [hr, hc]
  · exact renderOutlet_of_falsy nanMath RawField.truthy rawLoaded bareOutlet (Or.inl rfl)

/-! ## Commits and the latch -/

theorem effect8_of_latched {α β κ : Type} (m : JsMath α κ) (L : Leaflet α β)
    (snap cur : State κ) (h : cur.hasZoomed = true) :
    effect8 m L snap cur = (cur, []) := by
  unfold effect8
  simp [h]

theorem effect8_cases {α β κ : Type} (m : JsMath α κ) (L : Leaflet α β)
    (snap cur : State κ) :
    effect8 m L snap cur = (cur, []) ∨
      (cur.hasZoomed = false ∧ snap.selectedIds ≠ [] ∧
        ∃ (pops : List Int) (calls : List (MapCall α β)),
          effect8 m L snap cur = ({ cur with hasZoomed := true, openPopupIds := pops }, calls) ∧
          (calls.filter MapCall.isCamera).length ≤ 1 ∧
          (isChatboxSearch snap = false → calls = [] ∧ pops = cur.openPopupIds) ∧
          ∀ x ∈ cur.openPopupIds, x ∈ pops) := by
  unfold effect8
  by_cases h1 : (!cur.mapReady || snap.outlets.length == 0) = true
  · left; rw [if_pos h1]
  rw [if_neg h1]
  by_cases h2 : (snap.selectedIds.length == 0) = true
  · left; rw [if_pos h2]
  rw [if_neg h2]
  simp only []
  by_cases h3 : ((snap.outlets.filter (fun o => snap.selectedIds.contains o.id)).length == 0) = true
  · left; rw [if_pos h3]
  rw [if_neg h3]
  by_cases h4 : (!cur.hasZoomed) = true
  · rw [if_pos h4]
    right
    have hz : cur.hasZoomed = false := by simpa using h4
    have hs : snap.selectedIds ≠ [] := by
      intro e
      rw [e] at h2
      simp at h2
    refine ⟨hz, hs, ?_⟩
    by_cases hc : isChatboxSearch snap = true
    · simp only [hc, if_true]
      refine ⟨_, _, rfl, ?_, ?_, ?_⟩
      · rw [List.filter_append, filter_isCamera_openPopups, List.append_nil]
        split
        · split <;> simp [List.filter, MapCall.isCamera]
        · split
          · split
            · split <;> simp [List.filter, MapCall.isCamera]
            · simp
          · simp
      · intro hf
        cases hf
      · intro x hx
        exact mem_foldl_addPopupId_of_mem _ _ x hx
    · have hc2 : isChatboxSearch snap = false := by simpa using hc
      simp only [hc2, Bool.false_eq_true, if_false]
      exact ⟨_, _, rfl, by simp, fun _ => ⟨rfl, rfl⟩, fun x hx => hx⟩
  · left; rw [if_neg h4]


theorem effect6_of_selected {α β κ : Type} (snap cur : State κ) (h : snap.selectedIds ≠ []) :
    (effect6 snap cur : State κ × List (MapCall α β)) = (cur, []) := by
  unfold effect6
  have : snap.selectedIds.length ≠ 0 := fun e => h (List.length_eq_zero.mp e)
  simp [this]

theorem effect6_cases {α β κ : Type} (snap cur : State κ) :
    (effect6 snap cur : State κ × List (MapCall α β)) = (cur, []) ∨
      (snap.selectedIds = [] ∧
        (effect6 snap cur : State κ × List (MapCall α β)) =
          ({ cur with openPopupIds := [], hasZoomed := false }, [MapCall.closeAllPopups])) := by
  unfold effect6
  by_cases h : (snap.selectedIds.length == 0 && decide (snap.openPopupIds.length > 0)) = true
  · right
    rw [if_pos h]
    simp only [Bool.and_eq_true, beq_iff_eq] at h
    exact ⟨List.length_eq_zero.mp h.1, rfl⟩
  · left
    rw [if_neg h]

theorem effect7_prevSelectedIds {κ : Type} (snap cur : State κ) :
    (effect7 snap cur).prevSelectedIds = snap.selectedIds := by
  unfold effect7
  simp only []

theorem effect7_of_same {κ : Type} (snap cur : State κ)
    (h : cur.prevSelectedIds = snap.selectedIds) :
    effect7 snap cur = cur := by
  unfold effect7
  have hany : snap.selectedIds.any (fun id => !snap.selectedIds.contains id) = false := by
    rw [List.any_eq_false]
    intro x hx
    simp [hx]
  simp only [h, bne_self_eq_false, hany, Bool.or_self, Bool.false_and, Bool.false_eq_true,
    if_false]
  rw [← h]

theorem effect7_fields {κ : Type} (snap cur : State κ) :
    (effect7 snap cur).selectedIds = cur.selectedIds ∧
      (effect7 snap cur).openPopupIds = cur.openPopupIds ∧
      (effect7 snap cur).outlets = cur.outlets ∧
      (effect7 snap cur).mapReady = cur.mapReady := by
  unfold effect7
  simp only []
  split <;> exact ⟨rfl, rfl, rfl, rfl⟩


/-- The state and calls of the effect-6 step of a commit. -/
theorem commit_step6 {α β κ : Type} (d : Deps) (s : State κ) :
    (if d.d6 then (effect6 s s : State κ × List (MapCall α β)) else (s, [])) = (s, []) ∨
      (s.selectedIds = [] ∧
        (if d.d6 then (effect6 s s : State κ × List (MapCall α β)) else (s, [])) =
          ({ s with openPopupIds := [], hasZoomed := false }, [MapCall.closeAllPopups])) := by
  cases d.d6
  · left; rfl
  · simpa using effect6_cases s s

/-- The three ways a commit can go: nothing but effect 7 acts; effect 6 closes the popups
of an empty selection; effect 8 raises the latch for a non-empty one. -/
theorem commit_cases {α β κ : Type} (m : JsMath α κ) (L : Leaflet α β) (d : Deps)
    (s : State κ) :
    commit m L d s = ((if d.d7 then effect7 s s else s), []) ∨
    (s.selectedIds = [] ∧
      commit m L d s =
        ((if d.d7 then effect7 s { s with openPopupIds := [], hasZoomed := false }
          else { s with openPopupIds := [], hasZoomed := false }),
          [MapCall.closeAllPopups])) ∨
    (s.selectedIds ≠ [] ∧ (if d.d7 then effect7 s s else s).hasZoomed = false ∧
      ∃ (pops : List Int) (calls : List (MapCall α β)),
        commit m L d s =
          ({ (if d.d7 then effect7 s s else s) with hasZoomed := true, openPopupIds := pops },
            calls) ∧
        (calls.filter MapCall.isCamera).length ≤ 1 ∧
        (isChatboxSearch s = false →
          calls = [] ∧ pops = (if d.d7 then effect7 s s else s).openPopupIds) ∧
        ∀ x ∈ (if d.d7 then effect7 s s else s).openPopupIds, x ∈ pops) := by
  unfold commit
  simp only []
  rcases commit_step6 d s with h6 | ⟨hnil, h6⟩
  · rw [h6]
    cases hd8 : d.d8
    · left
      simp
    · simp only [if_true, List.nil_append]
      rcases effect8_cases m L s (if d.d7 then effect7 s s else s) with h8 | ⟨hz, hs, pops, calls, h8, hcount, hchat, hmem⟩
      · left
        rw [h8]
      · right; right
        refine ⟨hs, hz, pops, calls, ?_, hcount, hchat, hmem⟩
        rw [h8]
  · rw [h6]
    right; left
    refine ⟨hnil, ?_⟩
    cases hd8 : d.d8
    · simp
    · simp only [if_true]
      rw [effect8_of_selectedIds_nil m L s _ hnil]
      simp


theorem after7_fields {κ : Type} (d7 : Bool) (snap cur : State κ) :
    (if d7 then effect7 snap cur else cur).selectedIds = cur.selectedIds ∧
      (if d7 then effect7 snap cur else cur).openPopupIds = cur.openPopupIds := by
  cases d7
  · exact ⟨rfl, rfl⟩
  · exact ⟨(effect7_fields snap cur).1, (effect7_fields snap cur).2.1⟩

theorem after7_of_same {κ : Type} (d7 : Bool) (snap cur : State κ)
    (h : cur.prevSelectedIds = snap.selectedIds) :
    (if d7 then effect7 snap cur else cur) = cur := by
  cases d7
  · rfl
  · exact effect7_of_same snap cur h

theorem commit_selectedIds_eq {α β κ : Type} (m : JsMath α κ) (L : Leaflet α β) (d : Deps)
    (s : State κ) : (commit m L d s).1.selectedIds = s.selectedIds := by
  rcases commit_cases m L d s with h | ⟨_, h⟩ | ⟨_, _, pops, calls, h, _⟩
  · rw [h]
    exact (after7_fields d.d7 s s).1
  · rw [h]
    exact (after7_fields d.d7 s _).1
  · rw [h]
    exact (after7_fields d.d7 s s).1

/-- A commit issues at most one camera call, and raises the latch when it issues one. -/
theorem commit_camera {α β κ : Type} (m : JsMath α κ) (L : Leaflet α β) (d : Deps)
    (s : State κ) :
    ((commit m L d s).2.filter MapCall.isCamera).length ≤ 1 ∧
      ((commit m L d s).2.filter MapCall.isCamera ≠ [] → (commit m L d s).1.hasZoomed = true) := by
  rcases commit_cases m L d s with h | ⟨_, h⟩ | ⟨_, _, pops, calls, h, hcount, _⟩
  · rw [h]
    simp
  · rw [h]
    simp [List.filter, MapCall.isCamera]
  · rw [h]
    exact ⟨hcount, fun _ => rfl⟩

/-- Once effect 7 has recorded the selection, a commit keeps the record. -/
theorem commit_prevSelectedIds {α β κ : Type} (m : JsMath α κ) (L : Leaflet α β) (d : Deps)
    (s : State κ) (h : d.d7 = true ∨ s.prevSelectedIds = s.selectedIds) :
    (commit m L d s).1.prevSelectedIds = s.selectedIds := by
  have key : ∀ cur : State κ, cur.prevSelectedIds = s.prevSelectedIds →
      (if d.d7 then effect7 s cur else cur).prevSelectedIds = s.selectedIds := by
    intro cur hcur
    rcases h with h | h
    · rw [h]
      exact effect7_prevSelectedIds s cur
    · rw [after7_of_same d.d7 s cur (hcur.trans h), hcur, h]
  rcases commit_cases m L d s with h | ⟨_, h⟩ | ⟨_, _, pops, calls, h, _⟩
  · rw [h]
    exact key s rfl
  · rw [h]
    exact key _ rfl
  · rw [h]
    exact key s rfl

/-- With the selection recorded and the latch up (or nothing selected), a commit calls
nothing but the closing of all popups, and the latch stays up (or nothing is selected). -/
theorem commit_latched {α β κ : Type} (m : JsMath α κ) (L : Leaflet α β) (d : Deps)
    (s : State κ) (hprev : s.prevSelectedIds = s.selectedIds)
    (hl : s.hasZoomed = true ∨ s.selectedIds = []) :
    ((commit m L d s).1.hasZoomed = true ∨ (commit m L d s).1.selectedIds = []) ∧
      ∀ c ∈ (commit m L d s).2, c = MapCall.closeAllPopups := by
  have hsel := commit_selectedIds_eq m L d s
  rcases commit_cases m L d s with h | ⟨hnil, h⟩ | ⟨hne, hz, _⟩
  · rw [h] at hsel ⊢
    rw [after7_of_same d.d7 s s hprev]
    exact ⟨hl, fun c hc => by cases hc⟩
  · refine ⟨Or.inr (hsel.trans hnil), ?_⟩
    rw [h]
    intro c hc
    simpa using hc
  · rw [after7_of_same d.d7 s s hprev] at hz
    rcases hl with hl | hl
    · rw [hl] at hz
      cases hz
    · exact absurd hl hne

theorem filter_isCamera_of_closeAll {α β : Type} (l : List (MapCall α β))
    (h : ∀ c ∈ l, c = MapCall.closeAllPopups) : l.filter MapCall.isCamera = [] := by
  rw [List.filter_eq_nil_iff]
  intro c hc
  rw [h c hc]
  simp [MapCall.isCamera]

/-- Later renders with the selection recorded: at most one camera call in all, and with
the latch up (or nothing selected) no call but the closing of all popups. -/
theorem rerenders_camera {α β κ : Type} (m : JsMath α κ) (L : Leaflet α β)
    (rs : List (Rerender κ)) :
    ∀ s : State κ, s.prevSelectedIds = s.selectedIds →
      ((rerenders m L rs s).2.filter MapCall.isCamera).length ≤ 1 ∧
        ((s.hasZoomed = true ∨ s.selectedIds = []) →
          ∀ c ∈ (rerenders m L rs s).2, c = MapCall.closeAllPopups) := by
  induction rs with
  | nil =>
    intro s _
    exact ⟨by simp [rerenders], fun _ c hc => by cases hc⟩
  | cons r rs ih =>
    intro s hprev
    have hprev2 : (rerender m L r s).1.prevSelectedIds = (rerender m L r s).1.selectedIds := by
      unfold rerender
      rw [commit_selectedIds_eq]
      exact commit_prevSelectedIds m L r.deps
        { s with outlets := r.outlets, openPopupIds := r.openPopupIds, mapReady := r.mapReady }
        (Or.inr hprev)
    obtain ⟨ih1, ih2⟩ := ih (rerender m L r s).1 hprev2
    have hcam : ((rerender m L r s).2.filter MapCall.isCamera).length ≤ 1 ∧
        ((rerender m L r s).2.filter MapCall.isCamera ≠ [] →
          (rerender m L r s).1.hasZoomed = true) := by
      unfold rerender
      exact commit_camera m L r.deps _
    have e : (rerenders m L (r :: rs) s).2 =
        (rerender m L r s).2 ++ (rerenders m L rs (rerender m L r s).1).2 := rfl
    rw [e]
    constructor
    · rw [List.filter_append, List.length_append]
      by_cases hne : (rerender m L r s).2.filter MapCall.isCamera = []
      · rw [hne]
        simpa using ih1
      · have hrest := filter_isCamera_of_closeAll _ (ih2 (Or.inl (hcam.2 hne)))
        rw [hrest]
        simpa using hcam.1
    · intro hl c hc
      have hlat := commit_latched m L r.deps
        { s with outlets := r.outlets, openPopupIds := r.openPopupIds, mapReady := r.mapReady }
        hprev hl
      rcases List.mem_append.mp hc with hc | hc
      · exact hlat.2 c hc
      · exact ih2 hlat.1 c hc

/-! ## The new-selection check -/

theorem isDifferentSearch_iff (prevIds currentIds : List Int) (hp : prevIds.Nodup)
    (hc : currentIds.Nodup) :
    isDifferentSearch prevIds currentIds = true ↔ ¬ ∀ x, x ∈ currentIds ↔ x ∈ prevIds := by
  unfold isDifferentSearch
  constructor
  · intro h hsame
    rcases Bool.or_eq_true _ _ ▸ h with hlen | hany
    · have hperm : currentIds.Perm prevIds := (List.perm_ext_iff_of_nodup hc hp).mpr hsame
      have := hperm.length_eq
      simp only [bne_iff_ne, ne_eq] at hlen
      exact hlen this.symm
    · obtain ⟨x, hx, hnot⟩ := List.any_eq_true.mp hany
      have : x ∉ prevIds := by simpa using hnot
      exact this ((hsame x).mp hx)
  · intro hdiff
    by_contra hfalse
    have hfalse2 : (prevIds.length != currentIds.length ||
        currentIds.any (fun id => !prevIds.contains id)) = false := by
      simpa using hfalse
    obtain ⟨hlen, hany⟩ := Bool.or_eq_false_iff.mp hfalse2
    have hlen2 : prevIds.length = currentIds.length := by simpa using hlen
    have hsub : currentIds ⊆ prevIds := by
      intro x hx
      have := List.any_eq_false.mp hany x hx
      simpa using this
    have hperm : currentIds.Perm prevIds :=
      (List.subperm_of_subset hc hsub).perm_of_length_le (le_of_eq hlen2)
    exact hdiff (fun x => hperm.mem_iff)

/-- C13: for duplicate-free previous and new selections, the guard of effect 7 (different
search and non-empty) holds exactly when the new list is non-empty and its set of ids
differs from the previous one; when it holds the latch `hasZoomed` is reset to false, and
otherwise the latch is left as it was. -/
theorem effect7_latch {κ : Type} (snap cur : State κ) (hp : cur.prevSelectedIds.Nodup)
    (hn : snap.selectedIds.Nodup) :
    ((isDifferentSearch cur.prevSelectedIds snap.selectedIds &&
        decide (snap.selectedIds.length > 0)) = true ↔
      snap.selectedIds ≠ [] ∧ ¬ ∀ x, x ∈ snap.selectedIds ↔ x ∈ cur.prevSelectedIds) ∧
    ((isDifferentSearch cur.prevSelectedIds snap.selectedIds &&
        decide (snap.selectedIds.length > 0)) = true →
      (effect7 snap cur).hasZoomed = false) ∧
    ((isDifferentSearch cur.prevSelectedIds snap.selectedIds &&
        decide (snap.selectedIds.length > 0)) = false →
      (effect7 snap cur).hasZoomed = cur.hasZoomed) := by
  refine ⟨?_, ?_, ?_⟩
  · rw [Bool.and_eq_true, isDifferentSearch_iff _ _ hp hn, decide_eq_true_eq]
    have hpos : snap.selectedIds.length > 0 ↔ snap.selectedIds ≠ [] := List.length_pos
    rw [hpos]
    exact and_comm
  · intro h
    have h2 : (isDifferentSearch cur.prevSelectedIds snap.selectedIds &&
        decide (snap.selectedIds.length > 0)) = true := h
    unfold isDifferentSearch at h2
    unfold effect7
    simp only []
    rw [if_pos h2]
  · intro h
    have h2 : ¬ (isDifferentSearch cur.prevSelectedIds snap.selectedIds &&
        decide (snap.selectedIds.length > 0)) = true := by
      rw [h]
      exact Bool.false_ne_true
    unfold isDifferentSearch at h2
    unfold effect7
    simp only []
    rw [if_neg h2]

/-- With `[1, 2]` recorded and `[2, 3]` selected, the sets differ and effect 7 resets the
latch. -/
theorem effect7_latch_witness :
    (effect7 secondSearch secondSearch).hasZoomed = false :=
  (effect7_latch secondSearch secondSearch (by decide) (by decide)).2.1 (by decide)

/-! ## The latch of the auto-zoom -/

/-- C14: after the commit that follows a new `selectedIds` value, any number of later
renders with the same `selectedIds` (outlets, open popups and map handle changing at
will, any of the effects running) bring the camera calls to at most one in all; and once
that commit has left the latch up, the later renders issue no `setView`, no `fitBounds`
and no `openPopup`. -/
theorem autoZoom_latched {α β κ : Type} (m : JsMath α κ) (L : Leaflet α β) (s : State κ)
    (rs : List (Rerender κ)) :
    (((commit m L Deps.all s).2 ++
        (rerenders m L rs (commit m L Deps.all s).1).2).filter MapCall.isCamera).length ≤ 1 ∧
    ((commit m L Deps.all s).1.hasZoomed = true →
      ∀ c ∈ (rerenders m L rs (commit m L Deps.all s).1).2,
        c.isCamera = false ∧ ∀ id, c ≠ MapCall.openPopup id) := by
  have hprev : (commit m L Deps.all s).1.prevSelectedIds
      = (commit m L Deps.all s).1.selectedIds := by
    rw [commit_selectedIds_eq]
    exact commit_prevSelectedIds m L Deps.all s (Or.inl rfl)
  obtain ⟨h1, h2⟩ := rerenders_camera m L rs (commit m L Deps.all s).1 hprev
  obtain ⟨c1, c2⟩ := commit_camera m L Deps.all s
  constructor
  · rw [List.filter_append, List.length_append]
    by_cases hne : (commit m L Deps.all s).2.filter MapCall.isCamera = []
    · rw [hne]
      simpa using h1
    · have hrest := filter_isCamera_of_closeAll _ (h2 (Or.inl (c2 hne)))
      rw [hrest]
      simpa using c1
  · intro hl c hc
    have e := h2 (Or.inl hl) c hc
    subst e
    exact ⟨rfl, fun id h => by cases h⟩

/-- Scenario 1: the commit after the chat selected outlet 1 leaves the latch up, and the
two later renders do not call `setView` again. -/
theorem autoZoom_latched_witness :
    (commit realMath realLeaflet Deps.all scenario1).1.hasZoomed = true ∧
      MapCall.setView (3.0 : ℝ) 101.0 14 true 1 ∉
        (rerenders realMath realLeaflet laterRenders
          (commit realMath realLeaflet Deps.all scenario1).1).2 := by
  have hl : (commit realMath realLeaflet Deps.all scenario1).1.hasZoomed = true := by
    simp [commit, Deps.all, effect6, effect7, effect8, scenario1, loaded, isChatboxSearch,
      outlet1, outlet2, outlet3]
  refine ⟨hl, fun hmem => ?_⟩
  have h := ((autoZoom_latched realMath realLeaflet scenario1 laterRenders).2 hl _ hmem).1
  simp [MapCall.isCamera] at h

/-! ## A manual marker click -/

theorem isChatboxSearch_of_open_selected {κ : Type} (s : State κ) (id : Int)
    (h1 : id ∈ s.selectedIds) (h2 : id ∈ s.openPopupIds) : isChatboxSearch s = false := by
  unfold isChatboxSearch
  have hlen : s.openPopupIds.length ≠ 0 := by
    intro e
    rw [List.length_eq_zero.mp e] at h2
    cases h2
  have hany : s.selectedIds.any (fun x => s.openPopupIds.contains x) = true :=
    List.any_eq_true.mpr ⟨id, h1, by simpa using h2⟩
  rw [Bool.or_eq_false_iff]
  exact ⟨by simpa using hlen, by rw [hany]; rfl⟩

/-- A commit on a state where a selected id has its popup open keeps the id in both lists
and issues no camera call. -/
theorem commit_of_open_selected {α β κ : Type} (m : JsMath α κ) (L : Leaflet α β) (d : Deps)
    (s : State κ) (id : Int) (h1 : id ∈ s.selectedIds) (h2 : id ∈ s.openPopupIds) :
    id ∈ (commit m L d s).1.selectedIds ∧ id ∈ (commit m L d s).1.openPopupIds ∧
      (commit m L d s).2.filter MapCall.isCamera = [] := by
  have hsel := commit_selectedIds_eq m L d s
  refine ⟨by rw [hsel]; exact h1, ?_⟩
  rcases commit_cases m L d s with h | ⟨hnil, _⟩ | ⟨_, _, pops, calls, h, _, hchat, _⟩
  · rw [h]
    exact ⟨by rw [(after7_fields d.d7 s s).2]; exact h2, rfl⟩
  · rw [hnil] at h1
    cases h1
  · obtain ⟨hcalls, hpops⟩ := hchat (isChatboxSearch_of_open_selected s id h1 h2)
    rw [h, hcalls, hpops]
    exact ⟨by rw [(after7_fields d.d7 s s).2]; exact h2, rfl⟩

theorem commits_of_open_selected {α β κ : Type} (m : JsMath α κ) (L : Leaflet α β)
    (ds : List Deps) (id : Int) :
    ∀ s : State κ, id ∈ s.selectedIds → id ∈ s.openPopupIds →
      (commits m L ds s).1.selectedIds = s.selectedIds ∧
        id ∈ (commits m L ds s).1.openPopupIds ∧
        (commits m L ds s).2.filter MapCall.isCamera = [] := by
  induction ds with
  | nil => intro s _ h2; exact ⟨rfl, h2, rfl⟩
  | cons d ds ih =>
    intro s h1 h2
    obtain ⟨c1, c2, c3⟩ := commit_of_open_selected m L d s id h1 h2
    obtain ⟨i1, i2, i3⟩ := ih (commit m L d s).1 c1 c2
    have e : commits m L (d :: ds) s =
        ((commits m L ds (commit m L d s).1).1,
          (commit m L d s).2 ++ (commits m L ds (commit m L d s).1).2) := rfl
    rw [e]
    refine ⟨i1.trans (commit_selectedIds_eq m L d s), i2, ?_⟩
    rw [List.filter_append, c3, i3]
    rfl

/-- C15: when an id is in neither `selectedIds` nor `openPopupIds`, a click on its marker
followed by the commit of the new selection and any further commits leaves the id in both
lists and issues no camera call; with nothing selected before, `selectedIds` is then the
clicked id alone. -/
theorem markerClick_no_camera {α β κ : Type} (m : JsMath α κ) (L : Leaflet α β)
    (s : State κ) (store : Outlet κ) (ds : List Deps)
    (h1 : store.id ∉ s.selectedIds) (h2 : store.id ∉ s.openPopupIds) :
    store.id ∈ (commits m L (Deps.all :: ds)
        (handleMarkerClick s store : State κ × List (MapCall α β)).1).1.selectedIds ∧
    store.id ∈ (commits m L (Deps.all :: ds)
        (handleMarkerClick s store : State κ × List (MapCall α β)).1).1.openPopupIds ∧
    ((handleMarkerClick s store : State κ × List (MapCall α β)).2 ++
      (commits m L (Deps.all :: ds)
        (handleMarkerClick s store : State κ × List (MapCall α β)).1).2).filter
          MapCall.isCamera = [] ∧
    (s.selectedIds = [] →
      (commits m L (Deps.all :: ds)
        (handleMarkerClick s store : State κ × List (MapCall α β)).1).1.selectedIds
          = [store.id]) := by
  have hc : ¬ s.openPopupIds.contains store.id = true := by simp [h2]
  have hs : ¬ s.selectedIds.contains store.id = true := by simp [h1]
  have hclick : (handleMarkerClick s store : State κ × List (MapCall α β)) =
      ({ s with
          openPopupIds := s.openPopupIds ++ [store.id]
          selectedIds := s.selectedIds ++ [store.id] },
        [MapCall.openPopup store.id]) := by
    unfold handleMarkerClick
    simp only []
    rw [if_neg hc]
    unfold onToggleId toggleIds
    simp only []
    rw [if_neg hs]
  have hsel : (handleMarkerClick s store : State κ × List (MapCall α β)).1.selectedIds
      = s.selectedIds ++ [store.id] := by
    rw [hclick]
  have hpop : (handleMarkerClick s store : State κ × List (MapCall α β)).1.openPopupIds
      = s.openPopupIds ++ [store.id] := by
    rw [hclick]
  have hcalls : (handleMarkerClick s store : State κ × List (MapCall α β)).2
      = [MapCall.openPopup store.id] := by
    rw [hclick]
  obtain ⟨k1, k2, k3⟩ := commits_of_open_selected m L (Deps.all :: ds) store.id
    (handleMarkerClick s store : State κ × List (MapCall α β)).1
    (by rw [hsel]; simp) (by rw [hpop]; simp)
  refine ⟨?_, k2, ?_, ?_⟩
  · rw [k1, hsel]
    simp
  · rw [List.filter_append, k3, hcalls]
    rfl
  · intro hnil
    rw [k1, hsel, hnil]
    rfl

/-- Scenario 4: on the loaded map with nothing selected, a click on marker 2 followed by
the commit of the new selection and one more commit gives `selectedIds = [2]`, popup 2
in `openPopupIds`, and no camera call. -/
theorem markerClick_no_camera_witness :
    (commits realMath realLeaflet [Deps.all, Deps.all]
        (handleMarkerClick loaded outlet2 :
          State ℝ × List (MapCall ℝ (Option ((ℝ × ℝ) × (ℝ × ℝ))))).1).1.selectedIds = [2] ∧
    (2 : Int) ∈ (commits realMath realLeaflet [Deps.all, Deps.all]
        (handleMarkerClick loaded outlet2 :
          State ℝ × List (MapCall ℝ (Option ((ℝ × ℝ) × (ℝ × ℝ))))).1).1.openPopupIds ∧
    ((handleMarkerClick loaded outlet2 :
        State ℝ × List (MapCall ℝ (Option ((ℝ × ℝ) × (ℝ × ℝ))))).2 ++
      (commits realMath realLeaflet [Deps.all, Deps.all]
        (handleMarkerClick loaded outlet2 :
          State ℝ × List (MapCall ℝ (Option ((ℝ × ℝ) × (ℝ × ℝ))))).1).2).filter
            MapCall.isCamera = [] :=
  have h := markerClick_no_camera realMath realLeaflet loaded outlet2 [Deps.all]
    (by simp [loaded]) (by simp [loaded])
  ⟨h.2.2.2 rfl, h.2.1, h.2.2.1⟩

end DineMap
